import Mathlib

/-!
A verification development for the BuildRelay worker (src/worker).

The Python worker is shallowly embedded: jobs are records mirroring the JSON
job dictionaries, the Valkey status lists are Lean lists of job records, the
filesystem and the external collaborators (object storage, the uploader
subprocess, zip extraction) are an explicit environment of pure functions,
and each Python function that the claims touch is translated into a Lean
function of the same name.  Python dictionary serialization with
json.dumps is modelled by record equality: during one processing run the
key insertion order of the job dictionary is fixed, so two snapshots of the
dictionary serialize to the same string exactly when they hold equal values.
JSON null values for optional fields are conflated with absent keys and are
modelled as Option.none; Python truthiness of optional strings is the
function strTruthy below.
-/

-- ===============================================================
-- Python-side primitives
-- ===============================================================

/-- Classification of a filesystem path, as probed by os.path.exists,
os.path.isfile and os.path.isdir.  other covers paths that exist but are
neither regular files nor directories. -/
inductive PathKind where
  | missing
  | file
  | dir
  | other
deriving DecidableEq

/-- Python truthiness of an optional string: None and the empty string are
falsy, every other string is truthy. -/
def strTruthy : Option String → Bool
  | none => false
  | some s => !s.isEmpty

/-- How a Python f-string renders an optional string: None prints as the
text None, a string prints as itself. -/
def pyStr : Option String → String
  | none => "None"
  | some s => s

/-- os.path.dirname for POSIX paths, following the CPython implementation:
everything up to the last slash, with trailing slashes stripped unless the
result is all slashes. -/
def dirname (p : String) : String :=
  let cs := p.toList
  let k := (cs.reverse.takeWhile (fun c => c ≠ '/')).length
  let head := cs.take (cs.length - k)
  if head.isEmpty || head.all (fun c => c = '/') then String.mk head
  else String.mk ((head.reverse.dropWhile (fun c => c = '/')).reverse)

/-- os.path.join for POSIX paths, restricted to two components as used by
unzip_build. -/
def pathJoin (a b : String) : String :=
  if b.toList.head? = some '/' then b
  else if a.isEmpty || a.toList.getLast? = some '/' then a ++ b
  else a ++ "/" ++ b

/-- The zip test of the ingest resolvers: whether the path lowercased ends
in the archive suffix, checked on the last four characters (ASCII case
folding, which covers the suffix characters involved). -/
def endsWithZipLower (p : String) : Bool :=
  match p.toList.reverse with
  | c0 :: c1 :: c2 :: c3 :: _ =>
    (c0 = 'p' || c0 = 'P') && (c1 = 'i' || c1 = 'I') && (c2 = 'z' || c2 = 'Z') && c3 = '.'
  | _ => false

/-- str.strip with the slash character: drops leading and trailing slashes. -/
def stripSlashes (s : String) : String :=
  String.mk (((s.toList.dropWhile (fun c => c = '/')).reverse.dropWhile (fun c => c = '/')).reverse)

/-- pathlib PurePath.name: the final path component, after dropping any
trailing slashes. -/
def pathName (p : String) : String :=
  let cs := p.toList.reverse.dropWhile (fun c => c = '/')
  String.mk ((cs.takeWhile (fun c => c ≠ '/')).reverse)

/-- Whether the first list is an initial segment of the second. -/
def startsWithChars : List Char → List Char → Bool
  | [], _ => true
  | _ :: _, [] => false
  | a :: as, b :: bs => a = b && startsWithChars as bs

/-- Whether needle occurs as a contiguous run inside hay. -/
def containsChars (needle : List Char) : List Char → Bool
  | [] => needle.isEmpty
  | c :: rest => startsWithChars needle (c :: rest) || containsChars needle rest

/-- Substring containment on strings, used to state the manifest-shape
claims. -/
def strContainsSubstr (hay needle : String) : Bool :=
  containsChars needle.toList hay.toList

/-- The join of a list of lines with a newline separator, modelling the
Python idiom of joining with a newline string. -/
def joinLines : List String → String
  | [] => ""
  | [s] => s
  | s :: t :: rest => s ++ "\n" ++ joinLines (t :: rest)

-- ===============================================================
-- Data model (section 3 of the spec; the JSON job payload of worker.py)
-- ===============================================================

/-- A content-delivery channel configuration (cdn_channels entries). -/
structure CDNChannel where
  label : Option String
  region : Option String
  accessKeyId : Option String
  secretAccessKey : Option String
  bucketName : Option String
  path : Option String
  endpoint : Option String
  isPublic : Bool
deriving DecidableEq

/-- A depot entry of a release channel (steam_channels[i].depots entries). -/
structure Depot where
  id : String
  path : Option String
deriving DecidableEq

/-- A release-channel configuration (steam_channels entries). -/
structure SteamChannel where
  label : Option String
  appId : Option String
  depots : List Depot
  branch : Option String
deriving DecidableEq

/-- The result dictionary returned by SteamUploader.upload_build. -/
structure SteamUploadResult where
  app_id : String
  build_id : Option String
  branch_set : Option String
  success : Bool
  message : String
deriving DecidableEq

/-- An entry of the per-job cdn result collection job.upload_results.cdn. -/
structure CDNResultEntry where
  channel : Option String
  url : Option String
  success : Bool
deriving DecidableEq

/-- An entry of the per-job steam result collection job.upload_results.steam. -/
structure SteamResultEntry where
  channel : Option String
  app_id : String
  success : Bool
deriving DecidableEq

/-- The job.upload_results collection initialized by handle_job. -/
structure UploadResults where
  cdn : List CDNResultEntry
  steam : List SteamResultEntry
deriving DecidableEq

/-- An entry of job.steam_results as built by handle_steam_upload. -/
structure SteamChannelRecord where
  channel : Option String
  app_id : String
  result : SteamUploadResult
deriving DecidableEq

/-- The job dictionary, with the fields the worker reads or writes. -/
structure Job where
  id : String
  status : String
  startedAt : Option String
  completedAt : Option String
  error : Option String
  ingestPath : Option String
  absoluteIngestPath : Option String
  description : Option String
  cdn_channels : List CDNChannel
  steam_channels : List SteamChannel
  upload_results : Option UploadResults
  steam_results : Option (List SteamChannelRecord)
deriving DecidableEq

/-- The three status lists held in the key-value store.  Entries are the
serialized job snapshots, modelled as job records (serialization of the
evolving job dictionary is injective, see the file header). -/
structure KV where
  running : List Job
  complete : List Job
  failed : List Job
deriving DecidableEq

/-- Redis RPUSH on a status list. -/
def rpush (l : List Job) (v : Job) : List Job := l ++ [v]

/-- Redis LREM with count zero: removes every entry equal to the given
serialized value. -/
def lrem (l : List Job) (v : Job) : List Job :=
  l.filter (fun x => if x = v then false else true)

/-- The outcome of one run of the external uploader subprocess: its exit
code and its captured output lines (after ANSI stripping, which the claims
do not inspect). -/
structure SteamRun where
  returnCode : Int
  outputLines : List String

/-- Observable external calls made while processing one job.  Positions
number the configured channels in orchestration order: content-delivery
channels first (0 .. N-1), then release channels (N .. N+M-1). -/
inductive Eff where
  | netTransfer (pos : Nat)
  | spawn (pos : Nat)
deriving DecidableEq

/-- The orchestration position an effect belongs to. -/
def Eff.pos : Eff → Nat
  | .netTransfer p => p
  | .spawn p => p

/-- The environment: filesystem classification, outcomes of the external
collaborators, and ambient configuration. -/
structure Env where
  pathKind : String → PathKind
  zipErr : String → String → Option String
  unzipErr : String → String → Option String
  cdnTransfer : CDNChannel → String → String → Except String Unit
  steamRun : SteamChannel → SteamRun
  steamUsername : String
  startedAt : String
  completedAt : String

-- ===============================================================
-- src/worker/lib/steam/templates.py
-- ===============================================================

/-- The head of VDF_TEMPLATE up to and including the newline after the Desc
line; braces are written with hex escapes. -/
def VDF_HEAD (app_id description : String) : String :=
  "\"AppBuild\"\n\x7b\n    \"AppID\" \"" ++ app_id ++ "\"\n    \"Desc\"  \"" ++ description ++ "\"\n"

/-- The tail of VDF_TEMPLATE from the newline after the set_live slot on:
the Depots block wrapping the rendered depot sections. -/
def VDF_TAIL (depots : String) : String :=
  "\n    \"Depots\"\n    \x7b\n" ++ depots ++ "\n    \x7d\n\x7d"

/-- VDF_TEMPLATE with its four slots filled, split as head, set_live slot
and tail so the byte layout of the template literal is explicit. -/
def VDF_TEMPLATE (app_id description set_live depots : String) : String :=
  VDF_HEAD app_id description ++ set_live ++ VDF_TAIL depots

/-- DEPOT_TEMPLATE with its two slots filled: an 8-space indented depot id
line and block, a ContentRoot line, a blank line, then the FileMapping
block, exactly as in the template literal. -/
def DEPOT_TEMPLATE (depot_id content_root : String) : String :=
  "        \"" ++ depot_id ++ "\"\n        \x7b\n            \"ContentRoot\" \"" ++ content_root ++
  "\"\n\n            \"FileMapping\"\n            \x7b\n                \"LocalPath\" \"*\"\n                \"DepotPath\" \".\"\n                \"Recursive\" \"1\"\n            \x7d\n        \x7d"

-- ===============================================================
-- src/worker/lib/steam/builder.py  (SteamVDFBuilder)
-- ===============================================================

/-- One iteration of the depot loop of build_vdf: depot path defaulting to
a dot, content root built as build_path slash depot_path, rendered through
DEPOT_TEMPLATE. -/
def SteamVDFBuilder.depot_section (build_path : String) (d : Depot) : String :=
  DEPOT_TEMPLATE d.id (build_path ++ "/" ++ d.path.getD ("."))

/-- The depots_str local of build_vdf: depot sections joined with
newlines. -/
def SteamVDFBuilder.depots_str (build_path : String) (depots : List Depot) : String :=
  joinLines (depots.map (SteamVDFBuilder.depot_section build_path))

/-- The desc local of build_vdf: the description when truthy, the default
text otherwise. -/
def SteamVDFBuilder.desc_or_default (description : Option String) : String :=
  if strTruthy description then pyStr description else ("Build from BuildRelay")

/-- The set_live_str local of build_vdf: an indented SetLive line ending in
a newline when the branch is truthy, empty otherwise. -/
def SteamVDFBuilder.set_live_str (branch : Option String) : String :=
  if strTruthy branch then ("    \"SetLive\" \"" ++ pyStr branch ++ "\"\n") else ("")

/-- The manifest text rendered by build_vdf. -/
def SteamVDFBuilder.vdf_content (app_id : String) (depots : List Depot) (build_path : String)
    (description branch : Option String) : String :=
  VDF_TEMPLATE app_id (SteamVDFBuilder.desc_or_default description)
    (SteamVDFBuilder.set_live_str branch) (SteamVDFBuilder.depots_str build_path depots)

/-- build_vdf: the per-app-id file path and the manifest text written to
it.  The file write is modelled as always succeeding. -/
def SteamVDFBuilder.build_vdf (app_id : String) (depots : List Depot) (build_path : String)
    (description branch : Option String) : String × String :=
  ("/tmp/" ++ app_id ++ "_build.vdf", SteamVDFBuilder.vdf_content app_id depots build_path description branch)

-- ===============================================================
-- src/worker/lib/steam/uploader.py  (SteamUploader)
-- ===============================================================

/-- Membership in the character class matched by a whitespace escape of the
re module, restricted to ASCII. -/
def isSpaceChar (c : Char) : Bool :=
  c = ' ' || c = '\t' || c = '\n' || c = '\x0b' || c = '\x0c' || c = '\r'

/-- Membership in the decimal digit character class, restricted to ASCII. -/
def isDigitChar (c : Char) : Bool :=
  '0' ≤ c && c ≤ '9'

/-- Whether the regex of _extract_build_id matches at the start of the
given character list: the literal BuildID, then a maximal nonempty
whitespace run, then a maximal nonempty digit run, whose digits are the
captured group. -/
def buildIdMatchAt (cs : List Char) : Option String :=
  if startsWithChars ("BuildID".toList) cs then
    let rest := cs.drop 7
    let ws := rest.takeWhile isSpaceChar
    let ds := (rest.drop ws.length).takeWhile isDigitChar
    if 0 < ws.length && 0 < ds.length then some (String.mk ds) else none
  else none

/-- re.search: the match at the leftmost position where the pattern
matches, scanning positions left to right. -/
def buildIdSearch : List Char → Option String
  | [] => none
  | c :: cs =>
    match buildIdMatchAt (c :: cs) with
    | some d => some d
    | none => buildIdSearch cs

/-- _extract_build_id: first match of the BuildID pattern in the output. -/
def SteamUploader.extract_build_id (output : String) : Option String :=
  buildIdSearch output.toList

/-- upload_build, with the subprocess outcome supplied by the environment.
Returns the result of the call together with a flag recording whether the
subprocess was actually spawned.  Output lines are the captured lines after
ANSI stripping; the full output is their newline join. -/
def SteamUploader.upload_build (steam_username : String) (app_id : String) (vdf_path : String)
    (branch : Option String) (run : SteamRun) : Except String SteamUploadResult × Bool :=
  if steam_username.isEmpty then
    (.error ("STEAM_USERNAME environment variable is required"), false)
  else if run.returnCode ≠ 0 then
    (.error ("SteamPipe upload failed with code " ++ toString run.returnCode), true)
  else
    let full_output := joinLines run.outputLines
    let build_id := SteamUploader.extract_build_id full_output
    let branch_set := if build_id.isSome && strTruthy branch then branch else none
    (.ok { app_id := app_id, build_id := build_id, branch_set := branch_set, success := true,
           message := "Build successfully uploaded to Steam" }, true)

-- ===============================================================
-- src/worker/libs/zip.py
-- ===============================================================

/-- zip_build: archives a directory to a fixed per-job temp path, failure
supplied by the environment. -/
def zip_build (env : Env) (job_id : String) (directory_path : String) : Except String String :=
  match env.zipErr job_id directory_path with
  | some e => .error ("Error creating zip: " ++ e)
  | none => .ok ("/tmp/" ++ job_id ++ ".zip")

/-- unzip_build: extracts an archive into an extract_ directory next to it,
failure supplied by the environment. -/
def unzip_build (env : Env) (zip_path : String) (job_id : String) : Except String String :=
  match env.unzipErr zip_path job_id with
  | some e => .error ("Error extracting zip: " ++ e)
  | none => .ok (pathJoin (dirname zip_path) ("extract_" ++ job_id))

-- ===============================================================
-- src/worker/lib/steam/utils.py and src/worker/worker.py ingest resolvers
-- ===============================================================

/-- prepare_steam_build: classify the ingest path for a release-channel
upload.  A missing ingestPath key would raise a KeyError at the first log
line; a falsy or nonexistent absolute path raises the path error; a
directory is returned unchanged; a zip-suffixed file is extracted; any
other file yields its parent directory; anything else is invalid. -/
def prepare_steam_build (env : Env) (job : Job) : Except String String :=
  match job.ingestPath with
  | none => .error ("KeyError: ingestPath")
  | some _ =>
    match job.absoluteIngestPath with
    | none => .error ("Build path does not exist: None")
    | some p =>
      if p.isEmpty then .error ("Build path does not exist: " ++ p)
      else
        match env.pathKind p with
        | PathKind.missing => .error ("Build path does not exist: " ++ p)
        | PathKind.dir => .ok p
        | PathKind.file =>
          if endsWithZipLower p then unzip_build env p job.id
          else .ok (dirname p)
        | PathKind.other => .error ("Invalid path: " ++ p)

/-- get_steam_build_path of worker.py, whose body is line for line the
logic of prepare_steam_build. -/
def get_steam_build_path (env : Env) (job : Job) : Except String String :=
  prepare_steam_build env job

/-- get_cdn_file_path: classify the ingest path for a content-delivery
upload.  A file is returned unchanged, a directory is zipped. -/
def get_cdn_file_path (env : Env) (job : Job) : Except String String :=
  match job.ingestPath with
  | none => .error ("KeyError: ingestPath")
  | some _ =>
    match job.absoluteIngestPath with
    | none => .error ("Build path does not exist: None")
    | some p =>
      if p.isEmpty then .error ("Build path does not exist: " ++ p)
      else
        match env.pathKind p with
        | PathKind.missing => .error ("Build path does not exist: " ++ p)
        | PathKind.file => .ok p
        | PathKind.dir => zip_build env job.id p
        | PathKind.other => .error ("Invalid path: " ++ p)

-- ===============================================================
-- src/worker/lib/cdn.py  (CDNUploader)
-- ===============================================================

/-- The result dictionary returned by CDNUploader.upload_file. -/
structure CDNUploadInfo where
  url : String
  bucket : String
  key : String
  isPublic : Bool
deriving DecidableEq

/-- _init_s3_client field validation, in the order of the required_fields
list. -/
def CDNUploader.init_validate (c : CDNChannel) : Except String Unit :=
  if !(strTruthy c.region) then .error ("CDN destination must include \x27region\x27")
  else if !(strTruthy c.accessKeyId) then .error ("CDN destination must include \x27accessKeyId\x27")
  else if !(strTruthy c.secretAccessKey) then .error ("CDN destination must include \x27secretAccessKey\x27")
  else if !(strTruthy c.bucketName) then .error ("CDN destination must include \x27bucketName\x27")
  else .ok ()

/-- The destination key computed by upload_file: the configured path with
slashes stripped from both ends, prepended to the file name when nonempty. -/
def CDNUploader.s3_key (c : CDNChannel) (file_path : String) : String :=
  let pp := stripSlashes (c.path.getD (""))
  let file_name := pathName file_path
  if pp.isEmpty then file_name else pp ++ "/" ++ file_name

/-- The public URL computed by upload_file: path style under a custom
endpoint, virtual-hosted style on AWS otherwise. -/
def CDNUploader.public_url (c : CDNChannel) (s3_key : String) : String :=
  if strTruthy c.endpoint then
    pyStr c.endpoint ++ "/" ++ c.bucketName.getD ("") ++ "/" ++ s3_key
  else
    "https://" ++ c.bucketName.getD ("") ++ ".s3." ++ c.region.getD ("us-east-1") ++ ".amazonaws.com/" ++ s3_key

/-- upload_file, with the object-storage transfer outcome supplied by the
environment.  The second component records whether the transfer call was
made.  The best-effort public ACL step does not affect the result and is
not modelled. -/
def CDNUploader.upload_file (env : Env) (c : CDNChannel) (file_path : String) :
    Except String CDNUploadInfo × Bool :=
  if env.pathKind file_path = PathKind.missing then
    (.error ("File not found: " ++ file_path), false)
  else if !(strTruthy c.bucketName) then
    (.error ("CDN destination must include \x27bucketName\x27"), false)
  else
    let s3_key := CDNUploader.s3_key c file_path
    match env.cdnTransfer c file_path s3_key with
    | .error e => (.error e, true)
    | .ok _ =>
      (.ok { url := CDNUploader.public_url c s3_key, bucket := c.bucketName.getD (""),
             key := s3_key, isPublic := c.isPublic }, true)

-- ===============================================================
-- src/worker/worker.py  (handle_job, abbort_job, worker loop)
-- ===============================================================

/-- One cdn channel iteration of handle_job: construct the uploader, which
validates the config, then upload.  The flag records whether the network
transfer call was made. -/
def cdnChannelOutcome (env : Env) (fp : String) (c : CDNChannel) :
    Except String CDNUploadInfo × Bool :=
  match CDNUploader.init_validate c with
  | .error e => (.error e, false)
  | .ok _ => CDNUploader.upload_file env c fp

/-- The result entry appended to job.upload_results.cdn after a successful
channel upload. -/
def mkCdnEntry (c : CDNChannel) (info : CDNUploadInfo) : CDNResultEntry :=
  { channel := c.label, url := some info.url, success := true }

/-- Appending one entry to job.upload_results.cdn in place. -/
def jobAppendCdn (job : Job) (entry : CDNResultEntry) : Job :=
  let prev := job.upload_results.getD ⟨[], []⟩
  { job with upload_results := some ⟨prev.cdn ++ [entry], prev.steam⟩ }

/-- The cdn channel loop of handle_job: strictly sequential, stopping with
the first error.  Positions number the channels in orchestration order. -/
def cdnLoop (env : Env) (fp : String) :
    Nat → List CDNChannel → Job → List Eff → Job × List Eff × Option String
  | _, [], job, effs => (job, effs, none)
  | pos, c :: rest, job, effs =>
    match cdnChannelOutcome env fp c with
    | (Except.error e, att) => (job, effs ++ (if att then [Eff.netTransfer pos] else []), some e)
    | (Except.ok info, att) =>
      cdnLoop env fp (pos + 1) rest (jobAppendCdn job (mkCdnEntry c info))
        (effs ++ (if att then [Eff.netTransfer pos] else []))

/-- One steam channel iteration of handle_steam_upload: validate appId and
depots, build the manifest, then upload.  The flag records whether the
uploader subprocess was spawned. -/
def handle_steam_channel (env : Env) (bp : String) (description : Option String)
    (ch : SteamChannel) : Except String SteamUploadResult × Bool :=
  if !(strTruthy ch.appId) || ch.depots.isEmpty then
    (.error ("Steam channel \x27" ++ pyStr ch.label ++ "\x27 must include \x27appId\x27 and \x27depots\x27"), false)
  else
    let vdf := SteamVDFBuilder.build_vdf (pyStr ch.appId) ch.depots bp description ch.branch
    SteamUploader.upload_build env.steamUsername (pyStr ch.appId) vdf.1 ch.branch (env.steamRun ch)

/-- The per-channel record accumulated by handle_steam_upload. -/
def mkSteamRecord (ch : SteamChannel) (r : SteamUploadResult) : SteamChannelRecord :=
  { channel := ch.label, app_id := pyStr ch.appId, result := r }

/-- The steam channel loop of handle_steam_upload: accumulates records in a
local list, merged into the job only when every channel succeeds. -/
def steamLoop (env : Env) (description : Option String) (bp : String) :
    Nat → List SteamChannel → List SteamChannelRecord → List Eff →
    List SteamChannelRecord × List Eff × Option String
  | _, [], acc, effs => (acc, effs, none)
  | pos, ch :: rest, acc, effs =>
    match handle_steam_channel env bp description ch with
    | (Except.error e, sp) => (acc, effs ++ (if sp then [Eff.spawn pos] else []), some e)
    | (Except.ok r, sp) =>
      steamLoop env description bp (pos + 1) rest (acc ++ [mkSteamRecord ch r])
        (effs ++ (if sp then [Eff.spawn pos] else []))

/-- The job after the two opening mutations of handle_job: status running
and a start timestamp.  This is the serialized snapshot pushed onto the
running list. -/
def running_job (env : Env) (job : Job) : Job :=
  { job with status := "running", startedAt := some env.startedAt }

/-- The job after handle_job initializes the upload_results tracking. -/
def initialized_job (env : Env) (job : Job) : Job :=
  { running_job env job with upload_results := some ⟨[], []⟩ }

/-- The cdn block of handle_job: runs only when cdn channels are configured
and both ingest fields are truthy. -/
def cdn_phase (env : Env) (job : Job) : Job × List Eff × Option String :=
  if !job.cdn_channels.isEmpty && strTruthy job.ingestPath && strTruthy job.absoluteIngestPath then
    match get_cdn_file_path env job with
    | .error e => (job, [], some e)
    | .ok fp => cdnLoop env fp 0 job.cdn_channels job []
  else (job, [], none)

/-- The steam block of handle_job: resolves the build directory, runs the
channel loop, and on full success stores steam_results on the job and
mirrors them into upload_results.steam. -/
def steam_phase (env : Env) (job : Job) : Job × List Eff × Option String :=
  if !job.steam_channels.isEmpty && strTruthy job.ingestPath && strTruthy job.absoluteIngestPath then
    match get_steam_build_path env job with
    | .error e => (job, [], some e)
    | .ok bp =>
      match steamLoop env job.description bp job.cdn_channels.length job.steam_channels [] [] with
      | (_, effs2, some e) => (job, effs2, some e)
      | (records, effs2, none) =>
        let job4 := { job with steam_results := some records }
        let prev := job4.upload_results.getD ⟨[], []⟩
        let merged : UploadResults :=
          ⟨prev.cdn, prev.steam ++ records.map (fun r =>
            ({ channel := r.channel, app_id := r.app_id, success := true } : SteamResultEntry))⟩
        ({ job4 with upload_results := some merged }, effs2, none)
  else (job, [], none)

/-- The outcome of handle_job: the store, the effect trace, the final state
of the mutated job dictionary, and the raised error if any. -/
structure HJResult where
  kv : KV
  effs : List Eff
  job : Job
  err : Option String

/-- handle_job: push the running snapshot, run the cdn phase then the steam
phase, and on success move the snapshot from running to complete. -/
def handle_job (env : Env) (job0 : Job) (kv : KV) : HJResult :=
  let current_job := running_job env job0
  let kv1 : KV := { kv with running := rpush kv.running current_job }
  match cdn_phase env (initialized_job env job0) with
  | (job3, effs1, some e) => ⟨kv1, effs1, job3, some e⟩
  | (job3, effs1, none) =>
    match steam_phase env job3 with
    | (job6, effs2, some e) => ⟨kv1, effs1 ++ effs2, job6, some e⟩
    | (job6, effs2, none) =>
      let kv2 : KV := { kv1 with running := lrem kv1.running current_job }
      let jobC := { job6 with status := "complete", completedAt := some env.completedAt }
      ⟨{ kv2 with complete := rpush kv2.complete jobC }, effs1 ++ effs2, jobC, none⟩

/-- abbort_job: the removal key is the serialization of the job dictionary
in its state at abort time, not the snapshot pushed at start. -/
def abbort_job (kv : KV) (job : Job) (error_message : String) : KV × Job :=
  let kv1 : KV := { kv with running := lrem kv.running job }
  let job1 := { job with status := "failed", error := some error_message }
  ({ kv1 with failed := rpush kv1.failed job1 }, job1)

/-- One pass of the worker loop after a payload decoded to a job: run
handle_job and, on any raised error, abort the job with the wrapped error
text. -/
def processJob (env : Env) (kv : KV) (job : Job) : KV × List Eff :=
  match handle_job env job kv with
  | ⟨kvF, effs, _, none⟩ => (kvF, effs)
  | ⟨kvF, effs, jobF, some e⟩ =>
    ((abbort_job kvF jobF ("Job processing failed: " ++ e)).1, effs)

-- ===============================================================
-- Worker loop payload handling (worker.py bottom) for claim C10
-- ===============================================================

/-- JSON values, as produced by json.loads on a syntactically valid
payload. -/
inductive JValue where
  | null
  | bool (b : Bool)
  | num (n : Int)
  | str (s : String)
  | arr (items : List JValue)
  | obj (fields : List (String × JValue))

/-- Dictionary key lookup on a JSON object. -/
def lookupField : List (String × JValue) → String → Option JValue
  | [], _ => none
  | (k, v) :: rest, key => if k = key then some v else lookupField rest key

/-- The fate of one dequeued payload: discarded with the loop continuing,
crashed by an uncaught exception terminating the loop, or handed to
handle_job. -/
inductive StepOutcome where
  | discarded
  | crashed
  | processed
deriving DecidableEq

/-- The payload handling of the worker loop, with the json.loads outcome
supplied as input.  The try block catches only JSONDecodeError, so a decode
failure is discarded; a payload that is not an object raises an uncaught
AttributeError inside the try block at the id lookup; an object without an
id field raises an uncaught KeyError at the log-stream construction, which
sits outside the try block. -/
def worker_iteration (decoded : Except String JValue) : StepOutcome :=
  match decoded with
  | .error _ => .discarded
  | .ok (JValue.obj fields) =>
    match lookupField fields ("id") with
    | some _ => .processed
    | none => .crashed
  | .ok _ => .crashed

-- ===============================================================
-- Spec-side definitions used to state the claims
-- ===============================================================

/-- The depot block exactly as displayed in section 4.3 of the spec: the
depot id line with no base indentation and the ContentRoot line immediately
followed by the FileMapping block, with four-space inner indentation. -/
def specDepotBlock (depot_id content_root : String) : String :=
  "\"" ++ depot_id ++ "\"\n\x7b\n    \"ContentRoot\" \"" ++ content_root ++
  "\"\n    \"FileMapping\"\n    \x7b\n        \"LocalPath\" \"*\"\n        \"DepotPath\" \".\"\n        \"Recursive\" \"1\"\n    \x7d\n\x7d"

/-- The depot block shape the code actually renders (the amended claim):
eight spaces of base indentation on every line and a blank line between the
ContentRoot line and the FileMapping block. -/
def amendedDepotBlock (depot_id content_root : String) : String :=
  "        \"" ++ depot_id ++ "\"\n        \x7b\n            \"ContentRoot\" \"" ++ content_root ++
  "\"\n\n            \"FileMapping\"\n            \x7b\n                \"LocalPath\" \"*\"\n                \"DepotPath\" \".\"\n                \"Recursive\" \"1\"\n            \x7d\n        \x7d"

/-- Claim C3 as stated: a match is the literal BuildID immediately followed
by one or more digits, the digits being the extracted identifier. -/
def claimBuildIdMatchAt (cs : List Char) : Option String :=
  if startsWithChars ("BuildID".toList) cs then
    let ds := (cs.drop 7).takeWhile isDigitChar
    if 0 < ds.length then some (String.mk ds) else none
  else none

/-- Claim C3 as stated: the digits of the first occurrence of the pattern,
scanning every start position left to right. -/
def claimBuildIdExtract (s : String) : Option String :=
  ((List.range (s.toList.length + 1)).filterMap (fun i => claimBuildIdMatchAt (s.toList.drop i))).head?

/-- The amended C3 pattern: BuildID, then one or more whitespace
characters, then one or more digits, at the first start position where
this matches. -/
def amendedBuildIdExtract (s : String) : Option String :=
  ((List.range (s.toList.length + 1)).filterMap (fun i => buildIdMatchAt (s.toList.drop i))).head?

/-- A content-delivery channel missing one of the required fields checked
by _init_s3_client. -/
def cdnInvalid (c : CDNChannel) : Bool :=
  !(strTruthy c.region) || !(strTruthy c.accessKeyId) ||
  !(strTruthy c.secretAccessKey) || !(strTruthy c.bucketName)

/-- A release channel missing one of the required fields checked by
handle_steam_upload. -/
def steamInvalid (ch : SteamChannel) : Bool :=
  !(strTruthy ch.appId) || ch.depots.isEmpty

/-- The network-transfer effects emitted by a run of consecutive
successful cdn channels starting at a given position. -/
def cdnEffsFrom : List CDNChannel → Nat → List Eff
  | [], _ => []
  | _ :: rest, pos => Eff.netTransfer pos :: cdnEffsFrom rest (pos + 1)

/-- The spawn effects emitted by a run of consecutive successful steam
channels starting at a given position. -/
def steamEffsFrom : List SteamChannel → Nat → List Eff
  | [], _ => []
  | _ :: rest, pos => Eff.spawn pos :: steamEffsFrom rest (pos + 1)

-- ===============================================================
-- Concrete instances used by counterexamples and witnesses
-- ===============================================================

/-- An environment whose filesystem has no paths at all. -/
def envC1 : Env :=
  { pathKind := fun _ => PathKind.missing
  , zipErr := fun _ _ => none
  , unzipErr := fun _ _ => none
  , cdnTransfer := fun _ _ _ => Except.ok ()
  , steamRun := fun _ => { returnCode := 0, outputLines := [] }
  , steamUsername := "acct"
  , startedAt := "2026-01-01T00:00:00Z"
  , completedAt := "2026-01-01T00:10:00Z" }

/-- A fully configured content-delivery channel. -/
def chanC1 : CDNChannel :=
  { label := some ("prod"), region := some ("us-east-1"), accessKeyId := some ("k")
  , secretAccessKey := some ("s"), bucketName := some ("b"), path := none
  , endpoint := none, isPublic := false }

/-- A queued job whose ingest path does not exist, so that processing
aborts during the cdn phase. -/
def jobC1 : Job :=
  { id := "j1", status := "queued", startedAt := none, completedAt := none, error := none
  , ingestPath := some ("builds/b1"), absoluteIngestPath := some ("/data/builds/b1")
  , description := none, cdn_channels := [chanC1], steam_channels := []
  , upload_results := none, steam_results := none }

/-- An environment where the ingest path is a regular file and the
object-storage transfer fails. -/
def envC2 : Env :=
  { pathKind := fun _ => PathKind.file
  , zipErr := fun _ _ => none
  , unzipErr := fun _ _ => none
  , cdnTransfer := fun _ _ _ => Except.error ("connection reset")
  , steamRun := fun _ => { returnCode := 0, outputLines := [] }
  , steamUsername := "acct"
  , startedAt := "2026-01-01T00:00:00Z"
  , completedAt := "2026-01-01T00:10:00Z" }

/-- A job with one fully configured cdn channel and no steam channels. -/
def jobC2 : Job :=
  { id := "j2", status := "queued", startedAt := none, completedAt := none, error := none
  , ingestPath := some ("builds/b2"), absoluteIngestPath := some ("/data/b2.zip")
  , description := none, cdn_channels := [chanC1], steam_channels := []
  , upload_results := none, steam_results := none }

/-- An environment where every path is a directory and the uploader
subprocess exits with code 1. -/
def envC5 : Env :=
  { pathKind := fun _ => PathKind.dir
  , zipErr := fun _ _ => none
  , unzipErr := fun _ _ => none
  , cdnTransfer := fun _ _ _ => Except.ok ()
  , steamRun := fun _ => { returnCode := 1, outputLines := ["steamcmd failed"] }
  , steamUsername := "acct"
  , startedAt := "2026-01-01T00:00:00Z"
  , completedAt := "2026-01-01T00:10:00Z" }

/-- A fully configured release channel. -/
def chanC5 : SteamChannel :=
  { label := some ("default"), appId := some ("480")
  , depots := [{ id := "481", path := some (".") }], branch := some ("beta") }

/-- A job with one release channel and no cdn channels. -/
def jobC5 : Job :=
  { id := "j5", status := "queued", startedAt := none, completedAt := none, error := none
  , ingestPath := some ("builds/b5"), absoluteIngestPath := some ("/data/builds/b5")
  , description := none, cdn_channels := [], steam_channels := [chanC5]
  , upload_results := none, steam_results := none }

/-- An environment where every path is a regular file, zip extraction
succeeds and transfers succeed. -/
def envC6 : Env :=
  { pathKind := fun _ => PathKind.file
  , zipErr := fun _ _ => none
  , unzipErr := fun _ _ => none
  , cdnTransfer := fun _ _ _ => Except.ok ()
  , steamRun := fun _ => { returnCode := 0, outputLines := [] }
  , steamUsername := "acct"
  , startedAt := "2026-01-01T00:00:00Z"
  , completedAt := "2026-01-01T00:10:00Z" }

/-- A release channel with depots but no app id: it is missing a required
field. -/
def schanC6 : SteamChannel :=
  { label := some ("broken"), appId := none
  , depots := [{ id := "481", path := some (".") }], branch := none }

/-- A job whose first channel is a valid cdn channel and whose second
configured channel, a release channel, is missing its app id. -/
def jobC6 : Job :=
  { id := "j6", status := "queued", startedAt := none, completedAt := none, error := none
  , ingestPath := some ("builds/b6"), absoluteIngestPath := some ("/data/b6.zip")
  , description := none, cdn_channels := [chanC1], steam_channels := [schanC6]
  , upload_results := none, steam_results := none }

/-- A job with no cdn channels whose only release channel is missing its
app id. -/
def jobC6w : Job :=
  { id := "j6w", status := "queued", startedAt := none, completedAt := none, error := none
  , ingestPath := some ("builds/b6w"), absoluteIngestPath := some ("/data/b6w.zip")
  , description := none, cdn_channels := [], steam_channels := [schanC6]
  , upload_results := none, steam_results := none }

/-- An environment where every path is a directory. -/
def envC7 : Env :=
  { pathKind := fun _ => PathKind.dir
  , zipErr := fun _ _ => none
  , unzipErr := fun _ _ => none
  , cdnTransfer := fun _ _ _ => Except.ok ()
  , steamRun := fun _ => { returnCode := 0, outputLines := [] }
  , steamUsername := "acct"
  , startedAt := "2026-01-01T00:00:00Z"
  , completedAt := "2026-01-01T00:10:00Z" }

/-- A job whose ingest path is a directory under envC7. -/
def jobC7 : Job :=
  { id := "j7", status := "queued", startedAt := none, completedAt := none, error := none
  , ingestPath := some ("builds/b7"), absoluteIngestPath := some ("/data/build")
  , description := none, cdn_channels := [], steam_channels := []
  , upload_results := none, steam_results := none }

/-- An environment where every path is a regular file and transfers
succeed. -/
def envC8 : Env :=
  { pathKind := fun _ => PathKind.file
  , zipErr := fun _ _ => none
  , unzipErr := fun _ _ => none
  , cdnTransfer := fun _ _ _ => Except.ok ()
  , steamRun := fun _ => { returnCode := 0, outputLines := [] }
  , steamUsername := "acct"
  , startedAt := "2026-01-01T00:00:00Z"
  , completedAt := "2026-01-01T00:10:00Z" }

/-- A content-delivery channel whose configured path prefix carries a
trailing slash. -/
def chanC8 : CDNChannel :=
  { label := some ("cdn"), region := some ("us-east-1"), accessKeyId := some ("k")
  , secretAccessKey := some ("s"), bucketName := some ("b"), path := some ("docs/")
  , endpoint := none, isPublic := false }

-- ===============================================================
-- Helper lemmas: strings
-- ===============================================================

theorem string_append_assoc (a b c : String) : a ++ b ++ c = a ++ (b ++ c) := by
  cases a with
  | mk da =>
    cases b with
    | mk db =>
      cases c with
      | mk dc =>
        show String.append (String.append ⟨da⟩ ⟨db⟩) ⟨dc⟩ = String.append ⟨da⟩ (String.append ⟨db⟩ ⟨dc⟩)
        simp [String.append]

theorem string_append_empty (a : String) : a ++ "" = a := by
  cases a with
  | mk da =>
    show String.append ⟨da⟩ ⟨[]⟩ = ⟨da⟩
    simp [String.append]

theorem string_empty_append (a : String) : "" ++ a = a := by
  cases a with
  | mk da =>
    show String.append ⟨[]⟩ ⟨da⟩ = ⟨da⟩
    simp [String.append]

/-- A member of a newline join appears between a pre and a post piece. -/
theorem joinLines_decomp (s : String) :
    ∀ l : List String, s ∈ l → ∃ pre post, joinLines l = pre ++ s ++ post := by
  intro l
  induction l with
  | nil => intro h; exact absurd h (List.not_mem_nil s)
  | cons x xs ih =>
    intro h
    rcases List.mem_cons.mp h with heq | hmem
    · subst heq
      cases xs with
      | nil =>
        refine ⟨"", "", ?_⟩
        rw [string_empty_append, string_append_empty]
        rfl
      | cons y ys =>
        refine ⟨"", "\n" ++ joinLines (y :: ys), ?_⟩
        rw [string_empty_append]
        rw [← string_append_assoc]
        rfl
    · have hxs : xs ≠ [] := List.ne_nil_of_mem hmem
      obtain ⟨y, ys, rfl⟩ := List.exists_cons_of_ne_nil hxs
      obtain ⟨pre, post, hpre⟩ := ih hmem
      refine ⟨x ++ "\n" ++ pre, post, ?_⟩
      show x ++ "\n" ++ joinLines (y :: ys) = x ++ "\n" ++ pre ++ s ++ post
      rw [hpre]
      rw [string_append_assoc (x ++ "\n") pre s, string_append_assoc (x ++ "\n") (pre ++ s) post,
        string_append_assoc pre s post]

-- ===============================================================
-- Helper lemmas: projections of the job transformers
-- ===============================================================

@[simp] theorem running_job_id (env : Env) (j : Job) : (running_job env j).id = j.id := rfl

@[simp] theorem running_job_status (env : Env) (j : Job) : (running_job env j).status = "running" := rfl

@[simp] theorem running_job_ingestPath (env : Env) (j : Job) : (running_job env j).ingestPath = j.ingestPath := rfl

@[simp] theorem running_job_absoluteIngestPath (env : Env) (j : Job) :
    (running_job env j).absoluteIngestPath = j.absoluteIngestPath := rfl

@[simp] theorem running_job_description (env : Env) (j : Job) : (running_job env j).description = j.description := rfl

@[simp] theorem running_job_cdn_channels (env : Env) (j : Job) : (running_job env j).cdn_channels = j.cdn_channels := rfl

@[simp] theorem running_job_steam_channels (env : Env) (j : Job) : (running_job env j).steam_channels = j.steam_channels := rfl

@[simp] theorem running_job_upload_results (env : Env) (j : Job) : (running_job env j).upload_results = j.upload_results := rfl

@[simp] theorem running_job_steam_results (env : Env) (j : Job) : (running_job env j).steam_results = j.steam_results := rfl

@[simp] theorem running_job_error (env : Env) (j : Job) : (running_job env j).error = j.error := rfl

@[simp] theorem initialized_job_id (env : Env) (j : Job) : (initialized_job env j).id = j.id := rfl

@[simp] theorem initialized_job_status (env : Env) (j : Job) : (initialized_job env j).status = "running" := rfl

@[simp] theorem initialized_job_ingestPath (env : Env) (j : Job) : (initialized_job env j).ingestPath = j.ingestPath := rfl

@[simp] theorem initialized_job_absoluteIngestPath (env : Env) (j : Job) :
    (initialized_job env j).absoluteIngestPath = j.absoluteIngestPath := rfl

@[simp] theorem initialized_job_description (env : Env) (j : Job) : (initialized_job env j).description = j.description := rfl

@[simp] theorem initialized_job_cdn_channels (env : Env) (j : Job) : (initialized_job env j).cdn_channels = j.cdn_channels := rfl

@[simp] theorem initialized_job_steam_channels (env : Env) (j : Job) :
    (initialized_job env j).steam_channels = j.steam_channels := rfl

@[simp] theorem initialized_job_upload_results (env : Env) (j : Job) :
    (initialized_job env j).upload_results = some ⟨[], []⟩ := rfl

@[simp] theorem initialized_job_steam_results (env : Env) (j : Job) :
    (initialized_job env j).steam_results = j.steam_results := rfl

@[simp] theorem initialized_job_error (env : Env) (j : Job) : (initialized_job env j).error = j.error := rfl

/-- get_cdn_file_path reads only the ingest fields and the job id. -/
theorem get_cdn_file_path_eq_of_fields (env : Env) (j j2 : Job)
    (h1 : j2.ingestPath = j.ingestPath) (h2 : j2.absoluteIngestPath = j.absoluteIngestPath)
    (h3 : j2.id = j.id) : get_cdn_file_path env j2 = get_cdn_file_path env j := by
  unfold get_cdn_file_path
  rw [h1, h2, h3]

/-- get_steam_build_path reads only the ingest fields and the job id. -/
theorem get_steam_build_path_eq_of_fields (env : Env) (j j2 : Job)
    (h1 : j2.ingestPath = j.ingestPath) (h2 : j2.absoluteIngestPath = j.absoluteIngestPath)
    (h3 : j2.id = j.id) : get_steam_build_path env j2 = get_steam_build_path env j := by
  unfold get_steam_build_path prepare_steam_build
  rw [h1, h2, h3]

-- ===============================================================
-- Helper lemmas: the cdn channel loop
-- ===============================================================

/-- Effects emitted by a successful cdn run sit at consecutive positions. -/
theorem cdnEffsFrom_mem (ev : Eff) :
    ∀ (l : List CDNChannel) (pos : Nat), ev ∈ cdnEffsFrom l pos →
      ∃ i, i < l.length ∧ ev = Eff.netTransfer (pos + i) := by
  intro l
  induction l with
  | nil => intro pos h; exact absurd h (List.not_mem_nil ev)
  | cons c rest ih =>
    intro pos h
    rcases List.mem_cons.mp h with heq | hmem
    · exact ⟨0, by simp, by simpa using heq⟩
    · obtain ⟨i, hi, hev⟩ := ih (pos + 1) hmem
      exact ⟨i + 1, by simpa using Nat.succ_lt_succ hi, by rw [hev]; congr 1; omega⟩

/-- Running the loop across a prefix of fully succeeding channels just
advances the position, appends the result entries, and emits one transfer
effect per channel. -/
theorem cdnLoop_append_ok (env : Env) (fp : String) (infos : CDNChannel → CDNUploadInfo)
    (good : List CDNChannel) :
    ∀ (tail : List CDNChannel) (pos : Nat) (job : Job) (effs : List Eff),
      (∀ c ∈ good, cdnChannelOutcome env fp c = (Except.ok (infos c), true)) →
      cdnLoop env fp pos (good ++ tail) job effs =
        cdnLoop env fp (pos + good.length) tail
          (good.foldl (fun j c => jobAppendCdn j (mkCdnEntry c (infos c))) job)
          (effs ++ cdnEffsFrom good pos) := by
  induction good with
  | nil =>
    intro tail pos job effs _
    simp [cdnEffsFrom]
  | cons c g ih =>
    intro tail pos job effs h
    have hc := h c (List.mem_cons_self c g)
    simp only [List.cons_append, cdnLoop, hc, if_true, List.append_eq]
    rw [ih tail (pos + 1) (jobAppendCdn job (mkCdnEntry c (infos c)))
      (effs ++ [Eff.netTransfer pos]) (fun x hx => h x (List.mem_cons_of_mem c hx))]
    have hlen : pos + 1 + g.length = pos + (g.length + 1) := by omega
    simp [cdnEffsFrom, hlen, List.append_assoc]

/-- A failing channel stops the loop with the error of that channel. -/
theorem cdnLoop_head_fail (env : Env) (fp : String) (bad : CDNChannel) (rest : List CDNChannel)
    (e : String) (att : Bool) (pos : Nat) (job : Job) (effs : List Eff)
    (hbad : cdnChannelOutcome env fp bad = (Except.error e, att)) :
    cdnLoop env fp pos (bad :: rest) job effs =
      (job, effs ++ (if att then [Eff.netTransfer pos] else []), some e) := by
  simp only [cdnLoop, hbad]

/-- The loop on a good prefix followed by a failing channel: the good
entries are appended, the error of the failing channel is raised, and no
later channel contributes anything. -/
theorem cdnLoop_split_fail (env : Env) (fp : String) (infos : CDNChannel → CDNUploadInfo)
    (good : List CDNChannel) (bad : CDNChannel) (rest : List CDNChannel)
    (e : String) (att : Bool) (pos : Nat) (job : Job) (effs : List Eff)
    (hgood : ∀ c ∈ good, cdnChannelOutcome env fp c = (Except.ok (infos c), true))
    (hbad : cdnChannelOutcome env fp bad = (Except.error e, att)) :
    cdnLoop env fp pos (good ++ bad :: rest) job effs =
      (good.foldl (fun j c => jobAppendCdn j (mkCdnEntry c (infos c))) job,
       (effs ++ cdnEffsFrom good pos) ++ (if att then [Eff.netTransfer (pos + good.length)] else []),
       some e) := by
  rw [cdnLoop_append_ok env fp infos good (bad :: rest) pos job effs hgood]
  rw [cdnLoop_head_fail env fp bad rest e att (pos + good.length) _ _ hbad]

/-- The result entries accumulated by a run of fully succeeding channels. -/
theorem cdn_fold_results (infos : CDNChannel → CDNUploadInfo) (good : List CDNChannel) :
    ∀ (job : Job) (u : UploadResults), job.upload_results = some u →
      good.foldl (fun j c => jobAppendCdn j (mkCdnEntry c (infos c))) job =
        { job with upload_results := some ⟨u.cdn ++ good.map (fun c => mkCdnEntry c (infos c)), u.steam⟩ } := by
  induction good with
  | nil =>
    intro job u hu
    cases job with
    | mk jid jst jsa jca jer jip jaip jd jcc jsc jur jsr =>
      cases u with
      | mk ucdn usteam =>
        simp only [Job.upload_results] at hu
        simp [hu]
  | cons c g ih =>
    intro job u hu
    simp only [List.foldl_cons]
    rw [ih (jobAppendCdn job (mkCdnEntry c (infos c))) ⟨u.cdn ++ [mkCdnEntry c (infos c)], u.steam⟩
      (by simp [jobAppendCdn, hu])]
    cases job with
    | mk jid jst jsa jca jer jip jaip jd jcc jsc jur jsr =>
      simp only [Job.upload_results] at hu
      simp [jobAppendCdn, hu, List.append_assoc]

/-- The job component of the loop result only changes upload_results. -/
theorem cdnLoop_job_shape (env : Env) (fp : String) :
    ∀ (cs : List CDNChannel) (pos : Nat) (job : Job) (effs : List Eff),
      ∃ u, (cdnLoop env fp pos cs job effs).1 = { job with upload_results := u } := by
  intro cs
  induction cs with
  | nil => intro pos job effs; exact ⟨job.upload_results, rfl⟩
  | cons c g ih =>
    intro pos job effs
    cases hc : cdnChannelOutcome env fp c with
    | mk res att =>
      cases res with
      | error e =>
        refine ⟨job.upload_results, ?_⟩
        simp only [cdnLoop, hc]
      | ok info =>
        obtain ⟨u, hu⟩ := ih (pos + 1) (jobAppendCdn job (mkCdnEntry c info)) (effs ++ (if att then [Eff.netTransfer pos] else []))
        refine ⟨u, ?_⟩
        simp only [cdnLoop, hc]
        exact hu

-- ===============================================================
-- Helper lemmas: the steam channel loop
-- ===============================================================

/-- Effects emitted by a successful steam run sit at consecutive
positions. -/
theorem steamEffsFrom_mem (ev : Eff) :
    ∀ (l : List SteamChannel) (pos : Nat), ev ∈ steamEffsFrom l pos →
      ∃ i, i < l.length ∧ ev = Eff.spawn (pos + i) := by
  intro l
  induction l with
  | nil => intro pos h; exact absurd h (List.not_mem_nil ev)
  | cons c rest ih =>
    intro pos h
    rcases List.mem_cons.mp h with heq | hmem
    · exact ⟨0, by simp, by simpa using heq⟩
    · obtain ⟨i, hi, hev⟩ := ih (pos + 1) hmem
      exact ⟨i + 1, by simpa using Nat.succ_lt_succ hi, by rw [hev]; congr 1; omega⟩

/-- Running the steam loop across a prefix of fully succeeding channels
advances the position, appends the records, and emits one spawn effect per
channel. -/
theorem steamLoop_append_ok (env : Env) (desc : Option String) (bp : String)
    (sres : SteamChannel → SteamUploadResult) (good : List SteamChannel) :
    ∀ (tail : List SteamChannel) (pos : Nat) (acc : List SteamChannelRecord) (effs : List Eff),
      (∀ ch ∈ good, handle_steam_channel env bp desc ch = (Except.ok (sres ch), true)) →
      steamLoop env desc bp pos (good ++ tail) acc effs =
        steamLoop env desc bp (pos + good.length) tail
          (acc ++ good.map (fun ch => mkSteamRecord ch (sres ch)))
          (effs ++ steamEffsFrom good pos) := by
  induction good with
  | nil =>
    intro tail pos acc effs _
    simp [steamEffsFrom]
  | cons c g ih =>
    intro tail pos acc effs h
    have hc := h c (List.mem_cons_self c g)
    simp only [List.cons_append, steamLoop, hc, if_true, List.append_eq]
    rw [ih tail (pos + 1) (acc ++ [mkSteamRecord c (sres c)])
      (effs ++ [Eff.spawn pos]) (fun x hx => h x (List.mem_cons_of_mem c hx))]
    have hlen : pos + 1 + g.length = pos + (g.length + 1) := by omega
    simp [steamEffsFrom, hlen, List.append_assoc]

/-- A failing steam channel stops the loop with its error. -/
theorem steamLoop_head_fail (env : Env) (desc : Option String) (bp : String)
    (bad : SteamChannel) (rest : List SteamChannel) (e : String) (sp : Bool)
    (pos : Nat) (acc : List SteamChannelRecord) (effs : List Eff)
    (hbad : handle_steam_channel env bp desc bad = (Except.error e, sp)) :
    steamLoop env desc bp pos (bad :: rest) acc effs =
      (acc, effs ++ (if sp then [Eff.spawn pos] else []), some e) := by
  simp only [steamLoop, hbad]

/-- The steam loop on a good prefix followed by a failing channel. -/
theorem steamLoop_split_fail (env : Env) (desc : Option String) (bp : String)
    (sres : SteamChannel → SteamUploadResult) (good : List SteamChannel) (bad : SteamChannel)
    (rest : List SteamChannel) (e : String) (sp : Bool) (pos : Nat)
    (acc : List SteamChannelRecord) (effs : List Eff)
    (hgood : ∀ ch ∈ good, handle_steam_channel env bp desc ch = (Except.ok (sres ch), true))
    (hbad : handle_steam_channel env bp desc bad = (Except.error e, sp)) :
    steamLoop env desc bp pos (good ++ bad :: rest) acc effs =
      (acc ++ good.map (fun ch => mkSteamRecord ch (sres ch)),
       (effs ++ steamEffsFrom good pos) ++ (if sp then [Eff.spawn (pos + good.length)] else []),
       some e) := by
  rw [steamLoop_append_ok env desc bp sres good (bad :: rest) pos acc effs hgood]
  rw [steamLoop_head_fail env desc bp bad rest e sp (pos + good.length) _ _ hbad]

-- ===============================================================
-- Helper lemmas: channels missing required fields
-- ===============================================================

/-- A cdn channel missing a required field fails at uploader construction,
before any transfer call. -/
theorem cdnChannelOutcome_invalid (env : Env) (fp : String) (c : CDNChannel)
    (h : cdnInvalid c = true) :
    ∃ e, cdnChannelOutcome env fp c = (Except.error e, false) := by
  unfold cdnInvalid at h
  unfold cdnChannelOutcome CDNUploader.init_validate
  cases hr : strTruthy c.region with
  | false => exact ⟨"CDN destination must include \x27region\x27", by simp [hr]⟩
  | true =>
    cases hk : strTruthy c.accessKeyId with
    | false => exact ⟨"CDN destination must include \x27accessKeyId\x27", by simp [hr, hk]⟩
    | true =>
      cases hs : strTruthy c.secretAccessKey with
      | false => exact ⟨"CDN destination must include \x27secretAccessKey\x27", by simp [hr, hk, hs]⟩
      | true =>
        cases hb : strTruthy c.bucketName with
        | false => exact ⟨"CDN destination must include \x27bucketName\x27", by simp [hr, hk, hs, hb]⟩
        | true => simp [hr, hk, hs, hb] at h

/-- A steam channel missing a required field fails at validation, before
the manifest is built or anything is spawned. -/
theorem handle_steam_channel_invalid (env : Env) (bp : String) (desc : Option String)
    (ch : SteamChannel) (h : steamInvalid ch = true) :
    handle_steam_channel env bp desc ch =
      (Except.error ("Steam channel \x27" ++ pyStr ch.label ++ "\x27 must include \x27appId\x27 and \x27depots\x27"), false) := by
  unfold steamInvalid at h
  simp [handle_steam_channel, h]

/-- The cdn loop on a list containing an invalid channel raises, and every
emitted effect belongs to a channel strictly before the invalid one. -/
theorem cdnLoop_stop_invalid (env : Env) (fp : String) (bad : CDNChannel)
    (hbad : cdnInvalid bad = true) :
    ∀ (good rest : List CDNChannel) (pos : Nat) (job : Job) (effs : List Eff),
      ((cdnLoop env fp pos (good ++ bad :: rest) job effs).2.2).isSome = true ∧
      ∀ ev ∈ (cdnLoop env fp pos (good ++ bad :: rest) job effs).2.1,
        ev ∈ effs ∨ ∃ i, i < good.length ∧ ev.pos = pos + i := by
  intro good
  induction good with
  | nil =>
    intro rest pos job effs
    obtain ⟨e, he⟩ := cdnChannelOutcome_invalid env fp bad hbad
    simp only [List.nil_append, cdnLoop, he]
    refine ⟨rfl, ?_⟩
    intro ev hev
    left
    simpa using hev
  | cons c g ih =>
    intro rest pos job effs
    simp only [List.cons_append, cdnLoop]
    cases hc : cdnChannelOutcome env fp c with
    | mk res att =>
      cases res with
      | error e =>
        simp only []
        refine ⟨rfl, ?_⟩
        intro ev hev
        rcases List.mem_append.mp hev with h1 | h2
        · exact Or.inl h1
        · right
          refine ⟨0, by simp, ?_⟩
          cases att with
          | true => simp at h2; simp [h2, Eff.pos]
          | false => simp at h2
      | ok info =>
        obtain ⟨hsome, hmem⟩ := ih rest (pos + 1) (jobAppendCdn job (mkCdnEntry c info))
          (effs ++ (if att then [Eff.netTransfer pos] else []))
        refine ⟨hsome, ?_⟩
        intro ev hev
        rcases hmem ev hev with h1 | ⟨i, hi, hev2⟩
        · rcases List.mem_append.mp h1 with h3 | h4
          · exact Or.inl h3
          · right
            refine ⟨0, by simp, ?_⟩
            cases att with
            | true => simp at h4; simp [h4, Eff.pos]
            | false => simp at h4
        · exact Or.inr ⟨i + 1, by simpa using Nat.succ_lt_succ hi, by omega⟩

/-- The steam loop on a list containing an invalid channel raises, and
every emitted effect belongs to a channel strictly before the invalid
one. -/
theorem steamLoop_stop_invalid (env : Env) (desc : Option String) (bp : String)
    (bad : SteamChannel) (hbad : steamInvalid bad = true) :
    ∀ (good rest : List SteamChannel) (pos : Nat) (acc : List SteamChannelRecord) (effs : List Eff),
      ((steamLoop env desc bp pos (good ++ bad :: rest) acc effs).2.2).isSome = true ∧
      ∀ ev ∈ (steamLoop env desc bp pos (good ++ bad :: rest) acc effs).2.1,
        ev ∈ effs ∨ ∃ i, i < good.length ∧ ev.pos = pos + i := by
  intro good
  induction good with
  | nil =>
    intro rest pos acc effs
    have he := handle_steam_channel_invalid env bp desc bad hbad
    simp only [List.nil_append, steamLoop, he]
    refine ⟨rfl, ?_⟩
    intro ev hev
    left
    simpa using hev
  | cons c g ih =>
    intro rest pos acc effs
    simp only [List.cons_append, steamLoop]
    cases hc : handle_steam_channel env bp desc c with
    | mk res sp =>
      cases res with
      | error e =>
        simp only []
        refine ⟨rfl, ?_⟩
        intro ev hev
        rcases List.mem_append.mp hev with h1 | h2
        · exact Or.inl h1
        · right
          refine ⟨0, by simp, ?_⟩
          cases sp with
          | true => simp at h2; simp [h2, Eff.pos]
          | false => simp at h2
      | ok r =>
        obtain ⟨hsome, hmem⟩ := ih rest (pos + 1) (acc ++ [mkSteamRecord c r])
          (effs ++ (if sp then [Eff.spawn pos] else []))
        refine ⟨hsome, ?_⟩
        intro ev hev
        rcases hmem ev hev with h1 | ⟨i, hi, hev2⟩
        · rcases List.mem_append.mp h1 with h3 | h4
          · exact Or.inl h3
          · right
            refine ⟨0, by simp, ?_⟩
            cases sp with
            | true => simp at h4; simp [h4, Eff.pos]
            | false => simp at h4
        · exact Or.inr ⟨i + 1, by simpa using Nat.succ_lt_succ hi, by omega⟩

/-- All effects emitted by the cdn loop either were already present or
belong to one of the looped channels. -/
theorem cdnLoop_effs_range (env : Env) (fp : String) :
    ∀ (cs : List CDNChannel) (pos : Nat) (job : Job) (effs : List Eff),
      ∀ ev ∈ (cdnLoop env fp pos cs job effs).2.1,
        ev ∈ effs ∨ ∃ i, i < cs.length ∧ ev.pos = pos + i := by
  intro cs
  induction cs with
  | nil => intro pos job effs ev hev; exact Or.inl hev
  | cons c g ih =>
    intro pos job effs ev hev
    revert hev
    simp only [cdnLoop]
    cases hc : cdnChannelOutcome env fp c with
    | mk res att =>
      cases res with
      | error e =>
        simp only []
        intro hev
        rcases List.mem_append.mp hev with h1 | h2
        · exact Or.inl h1
        · right
          refine ⟨0, by simp, ?_⟩
          cases att with
          | true => simp at h2; simp [h2, Eff.pos]
          | false => simp at h2
      | ok info =>
        intro hev
        rcases ih (pos + 1) (jobAppendCdn job (mkCdnEntry c info))
            (effs ++ (if att then [Eff.netTransfer pos] else [])) ev hev with h1 | ⟨i, hi, hev2⟩
        · rcases List.mem_append.mp h1 with h3 | h4
          · exact Or.inl h3
          · right
            refine ⟨0, by simp, ?_⟩
            cases att with
            | true => simp at h4; simp [h4, Eff.pos]
            | false => simp at h4
        · exact Or.inr ⟨i + 1, by simpa using Nat.succ_lt_succ hi, by omega⟩

/-- All effects emitted by the steam loop either were already present or
belong to one of the looped channels. -/
theorem steamLoop_effs_range (env : Env) (desc : Option String) (bp : String) :
    ∀ (cs : List SteamChannel) (pos : Nat) (acc : List SteamChannelRecord) (effs : List Eff),
      ∀ ev ∈ (steamLoop env desc bp pos cs acc effs).2.1,
        ev ∈ effs ∨ ∃ i, i < cs.length ∧ ev.pos = pos + i := by
  intro cs
  induction cs with
  | nil => intro pos acc effs ev hev; exact Or.inl hev
  | cons c g ih =>
    intro pos acc effs ev hev
    revert hev
    simp only [steamLoop]
    cases hc : handle_steam_channel env bp desc c with
    | mk res sp =>
      cases res with
      | error e =>
        simp only []
        intro hev
        rcases List.mem_append.mp hev with h1 | h2
        · exact Or.inl h1
        · right
          refine ⟨0, by simp, ?_⟩
          cases sp with
          | true => simp at h2; simp [h2, Eff.pos]
          | false => simp at h2
      | ok r =>
        intro hev
        rcases ih (pos + 1) (acc ++ [mkSteamRecord c r])
            (effs ++ (if sp then [Eff.spawn pos] else [])) ev hev with h1 | ⟨i, hi, hev2⟩
        · rcases List.mem_append.mp h1 with h3 | h4
          · exact Or.inl h3
          · right
            refine ⟨0, by simp, ?_⟩
            cases sp with
            | true => simp at h4; simp [h4, Eff.pos]
            | false => simp at h4
        · exact Or.inr ⟨i + 1, by simpa using Nat.succ_lt_succ hi, by omega⟩

-- ===============================================================
-- Helper lemmas: the two phases and handle_job
-- ===============================================================

theorem cdn_phase_skip (env : Env) (j : Job) (h : j.cdn_channels = []) :
    cdn_phase env j = (j, [], none) := by
  simp [cdn_phase, h]

theorem cdn_phase_run (env : Env) (j : Job) (fp : String)
    (hin : strTruthy j.ingestPath = true) (habs : strTruthy j.absoluteIngestPath = true)
    (hne : j.cdn_channels.isEmpty = false) (hfp : get_cdn_file_path env j = Except.ok fp) :
    cdn_phase env j = cdnLoop env fp 0 j.cdn_channels j [] := by
  simp [cdn_phase, hin, habs, hne, hfp]

theorem cdn_phase_getfp_err (env : Env) (j : Job) (e : String)
    (hin : strTruthy j.ingestPath = true) (habs : strTruthy j.absoluteIngestPath = true)
    (hne : j.cdn_channels.isEmpty = false) (hfp : get_cdn_file_path env j = Except.error e) :
    cdn_phase env j = (j, [], some e) := by
  simp [cdn_phase, hin, habs, hne, hfp]

theorem steam_phase_skip (env : Env) (j : Job) (h : j.steam_channels = []) :
    steam_phase env j = (j, [], none) := by
  simp [steam_phase, h]

theorem steam_phase_getbp_err (env : Env) (j : Job) (e : String)
    (hin : strTruthy j.ingestPath = true) (habs : strTruthy j.absoluteIngestPath = true)
    (hne : j.steam_channels.isEmpty = false) (hbp : get_steam_build_path env j = Except.error e) :
    steam_phase env j = (j, [], some e) := by
  simp [steam_phase, hin, habs, hne, hbp]

theorem steam_phase_loop_err (env : Env) (j : Job) (bp : String)
    (recs : List SteamChannelRecord) (effs2 : List Eff) (e : String)
    (hin : strTruthy j.ingestPath = true) (habs : strTruthy j.absoluteIngestPath = true)
    (hne : j.steam_channels.isEmpty = false) (hbp : get_steam_build_path env j = Except.ok bp)
    (hloop : steamLoop env j.description bp j.cdn_channels.length j.steam_channels [] [] =
      (recs, effs2, some e)) :
    steam_phase env j = (j, effs2, some e) := by
  simp [steam_phase, hin, habs, hne, hbp, hloop]

/-- The job component of the cdn phase only changes upload_results. -/
theorem cdn_phase_job_shape (env : Env) (j : Job) :
    ∃ u, (cdn_phase env j).1 = { j with upload_results := u } := by
  unfold cdn_phase
  by_cases hg : (!j.cdn_channels.isEmpty && strTruthy j.ingestPath && strTruthy j.absoluteIngestPath) = true
  · rw [if_pos hg]
    cases hfp : get_cdn_file_path env j with
    | error e => exact ⟨j.upload_results, rfl⟩
    | ok fp => exact cdnLoop_job_shape env fp j.cdn_channels 0 j []
  · rw [if_neg hg]
    exact ⟨j.upload_results, rfl⟩

theorem handle_job_cdn_err (env : Env) (job0 : Job) (kv : KV) (j : Job) (effs : List Eff) (e : String)
    (h : cdn_phase env (initialized_job env job0) = (j, effs, some e)) :
    handle_job env job0 kv =
      ⟨{ kv with running := rpush kv.running (running_job env job0) }, effs, j, some e⟩ := by
  unfold handle_job
  simp only [h]

theorem handle_job_steam_err (env : Env) (job0 : Job) (kv : KV) (j3 : Job) (effs1 : List Eff)
    (j6 : Job) (effs2 : List Eff) (e : String)
    (h1 : cdn_phase env (initialized_job env job0) = (j3, effs1, none))
    (h2 : steam_phase env j3 = (j6, effs2, some e)) :
    handle_job env job0 kv =
      ⟨{ kv with running := rpush kv.running (running_job env job0) }, effs1 ++ effs2, j6, some e⟩ := by
  unfold handle_job
  simp only [h1, h2]

/-- When handle_job raises, the worker loop aborts the job: the removal key
is the mutated job, and the failed record is that job marked failed. -/
theorem processJob_of_err (env : Env) (kv : KV) (job0 : Job) (kvF : KV) (effs : List Eff)
    (jF : Job) (e : String)
    (h : handle_job env job0 kv = ⟨kvF, effs, jF, some e⟩) :
    processJob env kv job0 =
      ({ kvF with running := lrem kvF.running jF,
                  failed := rpush kvF.failed
                    { jF with status := "failed", error := some ("Job processing failed: " ++ e) } },
       effs) := by
  unfold processJob
  rw [h]
  rfl

-- ===============================================================
-- Helper lemmas: leftmost regex search as a scan over start positions
-- ===============================================================

/-- The recursive leftmost search equals taking the first match over all
start positions in order. -/
theorem buildIdSearch_eq_scan (cs : List Char) :
    buildIdSearch cs =
      ((List.range (cs.length + 1)).filterMap (fun i => buildIdMatchAt (cs.drop i))).head? := by
  induction cs with
  | nil => rfl
  | cons c cs ih =>
    rw [List.length_cons, List.range_succ_eq_map, List.filterMap_cons]
    cases hm : buildIdMatchAt ((c :: cs).drop 0) with
    | some d =>
      simp only [List.drop_zero] at hm
      simp [buildIdSearch, hm]
    | none =>
      simp only [List.drop_zero] at hm
      have hms : buildIdSearch (c :: cs) = buildIdSearch cs := by
        simp [buildIdSearch, hm]
      rw [hms, ih]
      simp only [List.filterMap_map]
      have hfun : ((fun i => buildIdMatchAt ((c :: cs).drop i)) ∘ Nat.succ) =
          (fun i => buildIdMatchAt (cs.drop i)) := by
        funext i
        simp [Function.comp, List.drop_succ_cons]
      rw [hfun]

-- ===============================================================
-- Claim theorems
-- ===============================================================

/-- C1: the claim states that a job is in exactly one status list at any
instant and that an abort removes the running entry with a removal key
matching the serialized snapshot inserted at start.  Evaluating the worker
on a job whose ingest path does not exist shows the code violates this:
abbort_job re-serializes the job dictionary after handle_job added the
upload_results key, so the LREM key no longer matches the pushed snapshot
and the job ends up in the running list and the failed list at once. -/
theorem c1_abort_leaves_stale_running_entry :
    (processJob envC1 ⟨[], [], []⟩ jobC1).1.running.map Job.id = ["j1"] ∧
    (processJob envC1 ⟨[], [], []⟩ jobC1).1.running.map Job.status = ["running"] ∧
    (processJob envC1 ⟨[], [], []⟩ jobC1).1.failed.map Job.id = ["j1"] ∧
    (processJob envC1 ⟨[], [], []⟩ jobC1).1.failed.map Job.status = ["failed"] := by
  exact ⟨rfl, rfl, rfl, rfl⟩

/-- C10: the worker loop discards a payload only on a JSON decode error;
a payload that decodes to a non-object, or to an object without an id
field, raises an uncaught exception that terminates the loop, while an
object with an id field is processed. -/
theorem c10_malformed_payload_handling :
    (∀ e : String, worker_iteration (Except.error e) = StepOutcome.discarded) ∧
    worker_iteration (Except.ok (JValue.arr [])) = StepOutcome.crashed ∧
    worker_iteration (Except.ok (JValue.obj [("name", JValue.str ("x"))])) = StepOutcome.crashed ∧
    worker_iteration (Except.ok (JValue.obj [("id", JValue.str ("j1"))])) = StepOutcome.processed := by
  exact ⟨fun e => rfl, rfl, rfl, rfl⟩

/-- C7: the steam ingest resolver returns a directory unchanged, extracts
a zip-suffixed regular file into its extraction directory and returns it,
returns the parent directory of any other regular file, and fails with a
path error on a missing path or a path of any other kind. -/
theorem c7_steam_ingest_classification (env : Env) (job : Job) (p : String)
    (hkey : job.ingestPath.isSome = true)
    (habs : job.absoluteIngestPath = some p)
    (hne : p.isEmpty = false) :
    (env.pathKind p = PathKind.dir → prepare_steam_build env job = Except.ok p) ∧
    (env.pathKind p = PathKind.file → endsWithZipLower p = true →
      env.unzipErr p job.id = none →
      prepare_steam_build env job = Except.ok (pathJoin (dirname p) ("extract_" ++ job.id))) ∧
    (env.pathKind p = PathKind.file → endsWithZipLower p = false →
      prepare_steam_build env job = Except.ok (dirname p)) ∧
    ((env.pathKind p = PathKind.missing ∨ env.pathKind p = PathKind.other) →
      ∃ e, prepare_steam_build env job = Except.error e) := by
  obtain ⟨ip, hip⟩ := Option.isSome_iff_exists.mp hkey
  refine ⟨?_, ?_, ?_, ?_⟩
  · intro hk
    simp [prepare_steam_build, hip, habs, hne, hk]
  · intro hk hz hu
    simp [prepare_steam_build, hip, habs, hne, hk, hz, unzip_build, hu]
  · intro hk hz
    simp [prepare_steam_build, hip, habs, hne, hk, hz]
  · intro hk
    rcases hk with hk | hk
    · exact ⟨"Build path does not exist: " ++ p, by simp [prepare_steam_build, hip, habs, hne, hk]⟩
    · exact ⟨"Invalid path: " ++ p, by simp [prepare_steam_build, hip, habs, hne, hk]⟩

/-- C7 witness: a directory ingest path is returned unchanged. -/
theorem c7_witness :
    prepare_steam_build envC7 jobC7 = Except.ok ("/data/build") :=
  (c7_steam_ingest_classification envC7 jobC7 ("/data/build") (by decide) rfl (by decide)).1 rfl

/-- C3 counterexample: the output BuildID123 contains BuildID followed by
one or more digits, so the claim as stated extracts 123, but the regex of
the code requires whitespace between BuildID and the digits and extracts
nothing. -/
theorem c3_counterexample :
    claimBuildIdExtract ("BuildID123") = some ("123") ∧
    SteamUploader.extract_build_id ("BuildID123") = none := by
  exact ⟨rfl, rfl⟩

/-- C3 (amended): the extraction takes the digits of the first occurrence
of BuildID followed by one or more whitespace characters and then one or
more digits; on process success with no such occurrence the result still
reports success with an absent build identifier, and the requested branch
is recorded as applied exactly when a branch was requested and a build
identifier was extracted. -/
theorem c3_build_id_extraction (username app_id vdf : String) (branch : Option String)
    (run : SteamRun) (hu : username.isEmpty = false) (hrc : run.returnCode = 0) :
    (∀ s, SteamUploader.extract_build_id s = amendedBuildIdExtract s) ∧
    ∃ res, SteamUploader.upload_build username app_id vdf branch run = (Except.ok res, true) ∧
      res.success = true ∧
      res.build_id = SteamUploader.extract_build_id (joinLines run.outputLines) ∧
      (res.build_id = none → res.branch_set = none) ∧
      (strTruthy branch = false → res.branch_set = none) ∧
      (res.build_id.isSome = true → strTruthy branch = true → res.branch_set = branch) := by
  constructor
  · intro s
    exact buildIdSearch_eq_scan s.toList
  · have h1 : SteamUploader.upload_build username app_id vdf branch run =
        (Except.ok { app_id := app_id,
                     build_id := SteamUploader.extract_build_id (joinLines run.outputLines),
                     branch_set := if (SteamUploader.extract_build_id (joinLines run.outputLines)).isSome
                         && strTruthy branch then branch else none,
                     success := true,
                     message := "Build successfully uploaded to Steam" }, true) := by
      simp [SteamUploader.upload_build, hu, hrc]
    refine ⟨_, h1, rfl, rfl, ?_, ?_, ?_⟩
    · intro hb
      have hb2 : SteamUploader.extract_build_id (joinLines run.outputLines) = none := hb
      simp [hb2]
    · intro hb
      simp [hb]
    · intro hb1 hb2
      have hb3 : (SteamUploader.extract_build_id (joinLines run.outputLines)).isSome = true := hb1
      simp [hb3, hb2]

/-- C3 witness: the end-to-end scenario of the spec, with the subprocess
line carrying BuildID 9001. -/
theorem c3_build_id_extraction_witness :
    ∃ res, SteamUploader.upload_build ("acct") ("480") ("/tmp/480_build.vdf") (some ("beta"))
        { returnCode := 0,
          outputLines := ["Successfully finished AppID 480 build (BuildID 9001)."] } =
        (Except.ok res, true) ∧
      res.success = true ∧
      res.build_id = SteamUploader.extract_build_id
        (joinLines ["Successfully finished AppID 480 build (BuildID 9001)."]) ∧
      (res.build_id = none → res.branch_set = none) ∧
      (strTruthy (some ("beta")) = false → res.branch_set = none) ∧
      (res.build_id.isSome = true → strTruthy (some ("beta")) = true → res.branch_set = some ("beta")) :=
  (c3_build_id_extraction ("acct") ("480") ("/tmp/480_build.vdf") (some ("beta"))
    { returnCode := 0,
      outputLines := ["Successfully finished AppID 480 build (BuildID 9001)."] }
    (by decide) rfl).2

set_option maxRecDepth 40000 in
/-- C4 counterexample: the manifest rendered for a concrete depot does not
contain the depot block displayed in the spec, because the code renders
the block with eight spaces of base indentation and a blank line between
the ContentRoot line and the FileMapping block. -/
theorem c4_counterexample :
    strContainsSubstr
        (SteamVDFBuilder.vdf_content ("480") [{ id := "1001", path := some (".") }] ("/build") none none)
        (specDepotBlock ("1001") ("/build/.")) = false ∧
    SteamVDFBuilder.depot_section ("/build") { id := "1001", path := some (".") } ≠
      specDepotBlock ("1001") ("/build/.") := by
  constructor
  · rfl
  · decide

/-- C4 (amended): for every depot, the rendered manifest contains a block
of the shape the code renders: the depot id line, brace, ContentRoot line,
a blank line, then the FileMapping block with the recursive full-tree
mapping, all with eight spaces of base indentation. -/
theorem c4_depot_block_shape (app_id : String) (depots : List Depot) (build_path : String)
    (description branch : Option String) :
    ∀ d ∈ depots, ∃ pre post,
      SteamVDFBuilder.vdf_content app_id depots build_path description branch =
        pre ++ amendedDepotBlock d.id (build_path ++ "/" ++ d.path.getD (".")) ++ post := by
  intro d hd
  have hmem : SteamVDFBuilder.depot_section build_path d ∈
      depots.map (SteamVDFBuilder.depot_section build_path) := List.mem_map_of_mem _ hd
  obtain ⟨pre, post, hjoin⟩ := joinLines_decomp (SteamVDFBuilder.depot_section build_path d)
    (depots.map (SteamVDFBuilder.depot_section build_path)) hmem
  refine ⟨VDF_HEAD app_id (SteamVDFBuilder.desc_or_default description) ++
          SteamVDFBuilder.set_live_str branch ++ "\n    \"Depots\"\n    \x7b\n" ++ pre,
          post ++ "\n    \x7d\n\x7d", ?_⟩
  have hblock : amendedDepotBlock d.id (build_path ++ "/" ++ d.path.getD (".")) =
      SteamVDFBuilder.depot_section build_path d := rfl
  rw [hblock]
  unfold SteamVDFBuilder.vdf_content VDF_TEMPLATE VDF_TAIL SteamVDFBuilder.depots_str
  rw [hjoin]
  simp only [string_append_assoc]

/-- C4 witness: the amended block shape holds at a concrete depot. -/
theorem c4_depot_block_shape_witness :
    ∃ pre post,
      SteamVDFBuilder.vdf_content ("480") [{ id := "1001", path := some (".") }] ("/build") none none =
        pre ++ amendedDepotBlock ("1001") ("/build" ++ "/" ++ ".") ++ post :=
  c4_depot_block_shape ("480") [{ id := "1001", path := some (".") }] ("/build") none none
    { id := "1001", path := some (".") } (by simp)

/-- C9: the manifest is a function of its inputs alone (two calls with
equal inputs render byte-identical text), and the manifest with a branch
differs from the branchless manifest only by the presence of the SetLive
line. -/
theorem c9_determinism_and_setlive (app_id : String) (depots : List Depot) (build_path : String)
    (description : Option String) (b : String) (hb : b.isEmpty = false) :
    (∀ (a2 : String) (d2 : List Depot) (bp2 : String) (desc2 : Option String) (br br2 : Option String),
      app_id = a2 → depots = d2 → build_path = bp2 → description = desc2 → br = br2 →
      SteamVDFBuilder.vdf_content app_id depots build_path description br =
        SteamVDFBuilder.vdf_content a2 d2 bp2 desc2 br2) ∧
    ∃ pre post,
      SteamVDFBuilder.vdf_content app_id depots build_path description (some b) =
        pre ++ ("    \"SetLive\" \"" ++ b ++ "\"\n") ++ post ∧
      SteamVDFBuilder.vdf_content app_id depots build_path description none = pre ++ post := by
  constructor
  · intro a2 d2 bp2 desc2 br br2 h1 h2 h3 h4 h5
    subst h1; subst h2; subst h3; subst h4; subst h5
    rfl
  · refine ⟨VDF_HEAD app_id (SteamVDFBuilder.desc_or_default description),
            VDF_TAIL (SteamVDFBuilder.depots_str build_path depots), ?_, ?_⟩
    · unfold SteamVDFBuilder.vdf_content VDF_TEMPLATE SteamVDFBuilder.set_live_str
      simp [strTruthy, hb, pyStr]
    · unfold SteamVDFBuilder.vdf_content VDF_TEMPLATE SteamVDFBuilder.set_live_str
      simp [strTruthy, string_append_empty]

/-- C9 witness: determinism and the SetLive difference at concrete
inputs. -/
theorem c9_determinism_and_setlive_witness :
    ∃ pre post,
      SteamVDFBuilder.vdf_content ("480") [{ id := "1001", path := some (".") }] ("/build") none (some ("beta")) =
        pre ++ ("    \"SetLive\" \"" ++ "beta" ++ "\"\n") ++ post ∧
      SteamVDFBuilder.vdf_content ("480") [{ id := "1001", path := some (".") }] ("/build") none none =
        pre ++ post :=
  (c9_determinism_and_setlive ("480") [{ id := "1001", path := some (".") }] ("/build") none ("beta")
    (by decide)).2

-- ===============================================================
-- Helper lemmas: phase-level effect ranges and the abort tail
-- ===============================================================

/-- Every effect of the cdn phase belongs to a cdn channel position. -/
theorem cdn_phase_effs_range (env : Env) (j : Job) :
    ∀ ev ∈ (cdn_phase env j).2.1, ∃ i, i < j.cdn_channels.length ∧ ev.pos = i := by
  intro ev
  unfold cdn_phase
  by_cases hg : (!j.cdn_channels.isEmpty && strTruthy j.ingestPath && strTruthy j.absoluteIngestPath) = true
  · rw [if_pos hg]
    cases hfp : get_cdn_file_path env j with
    | error e => intro hev; simp at hev
    | ok fp =>
      intro hev
      rcases cdnLoop_effs_range env fp j.cdn_channels 0 j [] ev hev with h | ⟨i, hi, hp⟩
      · simp at h
      · exact ⟨i, hi, by omega⟩
  · rw [if_neg hg]
    intro hev
    simp at hev

/-- Every effect of the steam phase belongs to a steam channel position,
offset by the number of cdn channels. -/
theorem steam_phase_effs_range (env : Env) (j : Job) :
    ∀ ev ∈ (steam_phase env j).2.1,
      ∃ i, i < j.steam_channels.length ∧ ev.pos = j.cdn_channels.length + i := by
  intro ev
  unfold steam_phase
  by_cases hg : (!j.steam_channels.isEmpty && strTruthy j.ingestPath && strTruthy j.absoluteIngestPath) = true
  · rw [if_pos hg]
    intro hev
    split at hev
    · simp at hev
    · rename_i bp heq
      split at hev
      · rename_i recs effs2 e2 heq2
        have hrange := steamLoop_effs_range env j.description bp j.steam_channels
          j.cdn_channels.length [] [] ev
        rw [heq2] at hrange
        rcases hrange (by simpa using hev) with h | h
        · simp at h
        · exact h
      · rename_i recs effs2 heq2
        have hrange := steamLoop_effs_range env j.description bp j.steam_channels
          j.cdn_channels.length [] [] ev
        rw [heq2] at hrange
        rcases hrange (by simpa using hev) with h | h
        · simp at h
        · exact h
  · rw [if_neg hg]
    intro hev
    simp at hev

/-- The abort tail shared by the steam-failure scenarios: with the cdn
phase fully succeeded and the steam loop failing at its first bad channel,
the worker aborts the job, keeps the cdn results in the failed record, and
attempts no channel beyond the failing one. -/
theorem steam_fail_abort_tail (env : Env) (kv : KV) (job0 : Job) (jA : Job) (effsA : List Eff)
    (cdnEntries : List CDNResultEntry)
    (sgood srest : List SteamChannel) (sbad : SteamChannel) (bp : String)
    (sres : SteamChannel → SteamUploadResult) (ebad : String) (att : Bool)
    (hin : strTruthy job0.ingestPath = true) (habs : strTruthy job0.absoluteIngestPath = true)
    (hch : job0.steam_channels = sgood ++ sbad :: srest)
    (hcd : cdn_phase env (initialized_job env job0) = (jA, effsA, none))
    (hAin : jA.ingestPath = job0.ingestPath) (hAabs : jA.absoluteIngestPath = job0.absoluteIngestPath)
    (hAid : jA.id = job0.id) (hAsc : jA.steam_channels = job0.steam_channels)
    (hAcc : jA.cdn_channels = job0.cdn_channels) (hAdesc : jA.description = job0.description)
    (hAsr : jA.steam_results = job0.steam_results)
    (hur : jA.upload_results = some ⟨cdnEntries, []⟩)
    (heffsA : ∀ ev ∈ effsA, ev.pos < job0.cdn_channels.length)
    (hbp : get_steam_build_path env job0 = Except.ok bp)
    (hgood : ∀ ch ∈ sgood, handle_steam_channel env bp job0.description ch = (Except.ok (sres ch), true))
    (hbad : handle_steam_channel env bp job0.description sbad = (Except.error ebad, att)) :
    (processJob env kv job0).1.complete = kv.complete ∧
    ∃ r, (processJob env kv job0).1.failed = kv.failed ++ [r] ∧
      r.status = "failed" ∧
      r.error = some ("Job processing failed: " ++ ebad) ∧
      r.upload_results = some ⟨cdnEntries, []⟩ ∧
      r.steam_results = job0.steam_results ∧
      ∀ ev ∈ (processJob env kv job0).2, ev.pos ≤ job0.cdn_channels.length + sgood.length := by
  have hloop : steamLoop env jA.description bp jA.cdn_channels.length jA.steam_channels [] [] =
      ([] ++ sgood.map (fun ch => mkSteamRecord ch (sres ch)),
       (([] : List Eff) ++ steamEffsFrom sgood job0.cdn_channels.length) ++
         (if att then [Eff.spawn (job0.cdn_channels.length + sgood.length)] else []),
       some ebad) := by
    rw [hAdesc, hAcc, hAsc, hch]
    exact steamLoop_split_fail env job0.description bp sres sgood sbad srest ebad att
      job0.cdn_channels.length [] [] hgood hbad
  have hph : steam_phase env jA =
      (jA,
       (([] : List Eff) ++ steamEffsFrom sgood job0.cdn_channels.length) ++
         (if att then [Eff.spawn (job0.cdn_channels.length + sgood.length)] else []),
       some ebad) := by
    refine steam_phase_loop_err env jA bp _ _ ebad ?_ ?_ ?_ ?_ hloop
    · rw [hAin]; exact hin
    · rw [hAabs]; exact habs
    · rw [hAsc, hch]; simp
    · rw [get_steam_build_path_eq_of_fields env job0 jA hAin hAabs hAid]; exact hbp
  have hhj := handle_job_steam_err env job0 kv jA effsA jA _ ebad hcd hph
  have hpj := processJob_of_err env kv job0 _ _ _ _ hhj
  rw [hpj]
  refine ⟨rfl, _, rfl, rfl, rfl, ?_, ?_, ?_⟩
  · simpa using hur
  · simpa using hAsr
  · intro ev hev
    rcases List.mem_append.mp hev with h1 | h
    · have := heffsA ev h1
      omega
    · rcases List.mem_append.mp h with h2 | h3
      · have h2b : ev ∈ steamEffsFrom sgood job0.cdn_channels.length := by simpa using h2
        obtain ⟨i, hi, hev2⟩ := steamEffsFrom_mem ev sgood job0.cdn_channels.length h2b
        rw [hev2]
        simp only [Eff.pos]
        omega
      · cases att with
        | true =>
          simp at h3
          rw [h3]
          simp [Eff.pos]
        | false => simp at h3

/-- C8 counterexample: with the path prefix configured as docs/ the code
strips the surrounding slashes and computes the key docs/x.zip, not the
literal prefix-slash-filename concatenation docs//x.zip the claim
describes. -/
theorem c8_counterexample :
    (CDNUploader.upload_file envC8 chanC8 ("/tmp/x.zip")).1 =
      Except.ok { url := "https://b.s3.us-east-1.amazonaws.com/docs/x.zip", bucket := "b",
                  key := "docs/x.zip", isPublic := false } ∧
    ("docs/x.zip" : String) ≠ "docs/" ++ "/" ++ "x.zip" := by
  exact ⟨rfl, by decide⟩

/-- C8 (amended): the destination key is the configured path prefix with
leading and trailing slashes stripped, prepended to the file name when the
stripped prefix is nonempty, and the public URL is path style under a
custom endpoint and virtual-hosted style on AWS otherwise. -/
theorem c8_key_and_url (env : Env) (c : CDNChannel) (file_path : String)
    (hex : env.pathKind file_path ≠ PathKind.missing)
    (hb : strTruthy c.bucketName = true)
    (htr : env.cdnTransfer c file_path (CDNUploader.s3_key c file_path) = Except.ok ()) :
    ∃ info, CDNUploader.upload_file env c file_path = (Except.ok info, true) ∧
      info.key = (if (stripSlashes (c.path.getD (""))).isEmpty then pathName file_path
                  else stripSlashes (c.path.getD ("")) ++ "/" ++ pathName file_path) ∧
      info.url = (if strTruthy c.endpoint then
                    pyStr c.endpoint ++ "/" ++ c.bucketName.getD ("") ++ "/" ++ info.key
                  else
                    "https://" ++ c.bucketName.getD ("") ++ ".s3." ++ c.region.getD ("us-east-1")
                      ++ ".amazonaws.com/" ++ info.key) := by
  have h1 : CDNUploader.upload_file env c file_path =
      (Except.ok { url := CDNUploader.public_url c (CDNUploader.s3_key c file_path),
                   bucket := c.bucketName.getD (""), key := CDNUploader.s3_key c file_path,
                   isPublic := c.isPublic }, true) := by
    simp [CDNUploader.upload_file, hex, hb, htr]
  refine ⟨_, h1, ?_, ?_⟩
  · simp [CDNUploader.s3_key]
  · simp [CDNUploader.public_url, CDNUploader.s3_key]

/-- C8 witness: the amended key and URL formulas hold on a concrete
channel with prefix docs/ and no custom endpoint. -/
theorem c8_key_and_url_witness :
    ∃ info, CDNUploader.upload_file envC8 chanC8 ("/tmp/x.zip") = (Except.ok info, true) ∧
      info.key = (if (stripSlashes (chanC8.path.getD (""))).isEmpty then pathName ("/tmp/x.zip")
                  else stripSlashes (chanC8.path.getD ("")) ++ "/" ++ pathName ("/tmp/x.zip")) ∧
      info.url = (if strTruthy chanC8.endpoint then
                    pyStr chanC8.endpoint ++ "/" ++ chanC8.bucketName.getD ("") ++ "/" ++ info.key
                  else
                    "https://" ++ chanC8.bucketName.getD ("") ++ ".s3." ++ chanC8.region.getD ("us-east-1")
                      ++ ".amazonaws.com/" ++ info.key) :=
  c8_key_and_url envC8 chanC8 ("/tmp/x.zip") (by decide) (by decide) rfl

/-- C5: a non-zero uploader exit code raises a fatal process error whose
message carries the exit code, independently of the accumulated output,
and a job whose only release channel hits such an exit ends in the failed
list and leaves the complete list untouched. -/
theorem c5_nonzero_exit_is_fatal (username app_id vdf : String) (branch : Option String)
    (rc : Int) (lines lines2 : List String) (env : Env) (kv : KV) (job0 : Job)
    (ch : SteamChannel) (bp : String)
    (hu : username.isEmpty = false) (hrc : rc ≠ 0)
    (hcdn : job0.cdn_channels = [])
    (hin : strTruthy job0.ingestPath = true) (habs : strTruthy job0.absoluteIngestPath = true)
    (hsteam : job0.steam_channels = [ch])
    (hbp : get_steam_build_path env job0 = Except.ok bp)
    (happ : strTruthy ch.appId = true) (hdep : ch.depots.isEmpty = false)
    (henvu : env.steamUsername.isEmpty = false)
    (hrun : (env.steamRun ch).returnCode = rc) :
    SteamUploader.upload_build username app_id vdf branch { returnCode := rc, outputLines := lines } =
      (Except.error ("SteamPipe upload failed with code " ++ toString rc), true) ∧
    SteamUploader.upload_build username app_id vdf branch { returnCode := rc, outputLines := lines } =
      SteamUploader.upload_build username app_id vdf branch { returnCode := rc, outputLines := lines2 } ∧
    (processJob env kv job0).1.complete = kv.complete ∧
    ∃ r, (processJob env kv job0).1.failed = kv.failed ++ [r] ∧
      r.status = "failed" ∧
      r.error = some ("Job processing failed: " ++ ("SteamPipe upload failed with code " ++ toString rc)) := by
  have hup : ∀ ls : List String,
      SteamUploader.upload_build username app_id vdf branch { returnCode := rc, outputLines := ls } =
        (Except.error ("SteamPipe upload failed with code " ++ toString rc), true) := by
    intro ls
    simp [SteamUploader.upload_build, hu, hrc]
  have hch : handle_steam_channel env bp job0.description ch =
      (Except.error ("SteamPipe upload failed with code " ++ toString rc), true) := by
    simp [handle_steam_channel, happ, hdep, SteamUploader.upload_build, henvu, hrun, hrc]
  have hcd : cdn_phase env (initialized_job env job0) = (initialized_job env job0, [], none) :=
    cdn_phase_skip env _ (by simp [hcdn])
  obtain ⟨hcompl, r, hfail, hst, herr, _, _, _⟩ :=
    steam_fail_abort_tail env kv job0 (initialized_job env job0) [] [] [] [] ch bp
      (fun _ => { app_id := "", build_id := none, branch_set := none, success := true, message := "" })
      ("SteamPipe upload failed with code " ++ toString rc) true
      hin habs (by rw [hsteam]; rfl) hcd rfl rfl rfl (by simp) (by simp) rfl (by simp)
      (by simp) (by intro ev hev; simp at hev) hbp
      (by intro x hx; simp at hx) hch
  exact ⟨hup lines, (hup lines).trans (hup lines2).symm, hcompl, r, hfail, hst, herr⟩

/-- C5 witness: end-to-end scenario 3 of the spec, with exit code 1. -/
theorem c5_nonzero_exit_is_fatal_witness :
    SteamUploader.upload_build ("acct") ("480") ("/tmp/480_build.vdf") none
      { returnCode := 1, outputLines := [] } =
      (Except.error ("SteamPipe upload failed with code " ++ toString (1 : Int)), true) ∧
    SteamUploader.upload_build ("acct") ("480") ("/tmp/480_build.vdf") none
      { returnCode := 1, outputLines := [] } =
    SteamUploader.upload_build ("acct") ("480") ("/tmp/480_build.vdf") none
      { returnCode := 1, outputLines := ["steamcmd failed"] } ∧
    (processJob envC5 ⟨[], [], []⟩ jobC5).1.complete = (⟨[], [], []⟩ : KV).complete ∧
    ∃ r, (processJob envC5 ⟨[], [], []⟩ jobC5).1.failed = (⟨[], [], []⟩ : KV).failed ++ [r] ∧
      r.status = "failed" ∧
      r.error = some ("Job processing failed: " ++
        ("SteamPipe upload failed with code " ++ toString (1 : Int))) :=
  c5_nonzero_exit_is_fatal ("acct") ("480") ("/tmp/480_build.vdf") none 1 []
    ["steamcmd failed"] envC5 ⟨[], [], []⟩ jobC5 chanC5 ("/data/builds/b5")
    (by decide) (by decide) rfl (by decide) (by decide) rfl rfl (by decide) (by decide)
    (by decide) rfl

/-- C6 counterexample: a job whose first configured channel is a valid
cdn channel and whose release channel is missing its app id performs the
cdn network transfer before the validation failure, so the claim that the
orchestration fails before any subprocess or network transfer call is
false as stated. -/
theorem c6_counterexample :
    (handle_job envC6 jobC6 ⟨[], [], []⟩).effs = [Eff.netTransfer 0] ∧
    (handle_job envC6 jobC6 ⟨[], [], []⟩).err.isSome = true := by
  exact ⟨rfl, rfl⟩

/-- C6 (amended): whenever the ingest fields are set and some configured
channel is missing a required field, the orchestration fails, and no
subprocess is spawned and no network transfer call is made for the first
such channel or for any channel after it; channels before it may already
have performed their calls. -/
theorem c6_missing_field_fails_before_calls (env : Env) (kv : KV) (job0 : Job)
    (hin : strTruthy job0.ingestPath = true)
    (habs : strTruthy job0.absoluteIngestPath = true) :
    (∀ (good rest : List CDNChannel) (bad : CDNChannel),
      job0.cdn_channels = good ++ bad :: rest → cdnInvalid bad = true →
      (handle_job env job0 kv).err.isSome = true ∧
      ∀ ev ∈ (handle_job env job0 kv).effs, ev.pos < good.length) ∧
    (∀ (sgood srest : List SteamChannel) (sbad : SteamChannel),
      job0.steam_channels = sgood ++ sbad :: srest → steamInvalid sbad = true →
      (handle_job env job0 kv).err.isSome = true ∧
      ∀ ev ∈ (handle_job env job0 kv).effs, ev.pos < job0.cdn_channels.length + sgood.length) := by
  constructor
  · intro good rest bad hch hbadinv
    cases hfp : get_cdn_file_path env (initialized_job env job0) with
    | error e =>
      have hph : cdn_phase env (initialized_job env job0) = (initialized_job env job0, [], some e) :=
        cdn_phase_getfp_err env _ e (by simp [hin]) (by simp [habs]) (by simp [hch]) hfp
      rw [handle_job_cdn_err env job0 kv _ _ e hph]
      refine ⟨rfl, ?_⟩
      intro ev hev
      simp at hev
    | ok fp =>
      have hph : cdn_phase env (initialized_job env job0) =
          cdnLoop env fp 0 (good ++ bad :: rest) (initialized_job env job0) [] := by
        have h0 := cdn_phase_run env (initialized_job env job0) fp (by simp [hin]) (by simp [habs])
          (by simp [hch]) hfp
        rw [h0]
        have hch2 : (initialized_job env job0).cdn_channels = good ++ bad :: rest := by simp [hch]
        rw [hch2]
      obtain ⟨hsome, hmem⟩ := cdnLoop_stop_invalid env fp bad hbadinv good rest 0
        (initialized_job env job0) []
      cases hloop : cdnLoop env fp 0 (good ++ bad :: rest) (initialized_job env job0) [] with
      | mk j3 r2 =>
        cases r2 with
        | mk effs oerr =>
          rw [hloop] at hsome hmem hph
          cases oerr with
          | none => simp at hsome
          | some e2 =>
            rw [handle_job_cdn_err env job0 kv j3 effs e2 hph]
            refine ⟨rfl, ?_⟩
            intro ev hev
            rcases hmem ev (by simpa using hev) with h | ⟨i, hi, hp⟩
            · simp at h
            · have : ev.pos = i := by omega
              omega
  · intro sgood srest sbad hch hbadinv
    cases hcd : cdn_phase env (initialized_job env job0) with
    | mk jA r2 =>
      cases r2 with
      | mk effsA oerr1 =>
        have heffsA : ∀ ev ∈ effsA, ev.pos < job0.cdn_channels.length := by
          intro ev hev
          obtain ⟨i, hi, hp⟩ :=
            cdn_phase_effs_range env (initialized_job env job0) ev (by rw [hcd]; simpa using hev)
          simp only [initialized_job_cdn_channels] at hi
          omega
        cases oerr1 with
        | some e =>
          rw [handle_job_cdn_err env job0 kv jA effsA e hcd]
          refine ⟨rfl, ?_⟩
          intro ev hev
          have h := heffsA ev (by simpa using hev)
          omega
        | none =>
          obtain ⟨u, hshape⟩ := cdn_phase_job_shape env (initialized_job env job0)
          rw [hcd] at hshape
          simp only [] at hshape
          have hAsc : jA.steam_channels = sgood ++ sbad :: srest := by
            rw [hshape]; simp [hch]
          have hAin : strTruthy jA.ingestPath = true := by rw [hshape]; simpa using hin
          have hAabs : strTruthy jA.absoluteIngestPath = true := by rw [hshape]; simpa using habs
          have hAcc : jA.cdn_channels.length = job0.cdn_channels.length := by rw [hshape]; simp
          cases hbp : get_steam_build_path env jA with
          | error e2 =>
            have hph : steam_phase env jA = (jA, [], some e2) :=
              steam_phase_getbp_err env jA e2 hAin hAabs (by simp [hAsc]) hbp
            rw [handle_job_steam_err env job0 kv jA effsA jA [] e2 hcd hph]
            refine ⟨rfl, ?_⟩
            intro ev hev
            have h : ev ∈ effsA := by simpa using hev
            have := heffsA ev h
            omega
          | ok bp =>
            obtain ⟨hsome, hmem⟩ := steamLoop_stop_invalid env jA.description bp sbad hbadinv
              sgood srest jA.cdn_channels.length [] []
            cases hloop : steamLoop env jA.description bp jA.cdn_channels.length
                (sgood ++ sbad :: srest) [] [] with
            | mk recs r3 =>
              cases r3 with
              | mk effs2 oerr2 =>
                rw [hloop] at hsome hmem
                cases oerr2 with
                | none => simp at hsome
                | some e2 =>
                  have hph : steam_phase env jA = (jA, effs2, some e2) := by
                    refine steam_phase_loop_err env jA bp recs effs2 e2 hAin hAabs
                      (by simp [hAsc]) hbp ?_
                    rw [hAsc]
                    exact hloop
                  rw [handle_job_steam_err env job0 kv jA effsA jA effs2 e2 hcd hph]
                  refine ⟨rfl, ?_⟩
                  intro ev hev
                  rcases List.mem_append.mp (by simpa using hev) with h1 | h2
                  · have := heffsA ev h1
                    omega
                  · rcases hmem ev (by simpa using h2) with h | ⟨i, hi, hp⟩
                    · simp at h
                    · rw [hAcc] at hp
                      omega

/-- C6 witness: a job with no cdn channels whose only release channel is
missing its app id fails with no effect at or after position zero. -/
theorem c6_missing_field_fails_before_calls_witness :
    (handle_job envC6 jobC6w ⟨[], [], []⟩).err.isSome = true ∧
    ∀ ev ∈ (handle_job envC6 jobC6w ⟨[], [], []⟩).effs,
      ev.pos < jobC6w.cdn_channels.length + ([] : List SteamChannel).length :=
  (c6_missing_field_fails_before_calls envC6 ⟨[], [], []⟩ jobC6w (by decide) (by decide)).2
    [] [] schanC6 rfl (by decide)

/-- C2: the first channel failure in either phase raises immediately and
aborts the job: the complete list is untouched, the failed record carries
the first failure text and keeps every per-channel result already appended
to the result collection, and no channel after the failing one is
attempted (no effect carries a later position). -/
theorem c2_first_channel_failure_aborts (env : Env) (kv : KV) (job0 : Job)
    (hin : strTruthy job0.ingestPath = true)
    (habs : strTruthy job0.absoluteIngestPath = true) :
    (∀ (good rest : List CDNChannel) (bad : CDNChannel) (fp : String)
       (infos : CDNChannel → CDNUploadInfo) (ebad : String) (att : Bool),
       job0.cdn_channels = good ++ bad :: rest →
       get_cdn_file_path env job0 = Except.ok fp →
       (∀ c ∈ good, cdnChannelOutcome env fp c = (Except.ok (infos c), true)) →
       cdnChannelOutcome env fp bad = (Except.error ebad, att) →
       (processJob env kv job0).1.complete = kv.complete ∧
       ∃ r, (processJob env kv job0).1.failed = kv.failed ++ [r] ∧
         r.status = "failed" ∧
         r.error = some ("Job processing failed: " ++ ebad) ∧
         r.upload_results = some ⟨good.map (fun c => mkCdnEntry c (infos c)), []⟩ ∧
         ∀ ev ∈ (processJob env kv job0).2, ev.pos ≤ good.length) ∧
    (∀ (sgood srest : List SteamChannel) (sbad : SteamChannel) (bp : String)
       (sres : SteamChannel → SteamUploadResult) (cdnInfos : CDNChannel → CDNUploadInfo)
       (fp : String) (ebad : String) (att : Bool),
       job0.steam_channels = sgood ++ sbad :: srest →
       (job0.cdn_channels = [] ∨
         (job0.cdn_channels.isEmpty = false ∧ get_cdn_file_path env job0 = Except.ok fp ∧
          ∀ c ∈ job0.cdn_channels, cdnChannelOutcome env fp c = (Except.ok (cdnInfos c), true))) →
       get_steam_build_path env job0 = Except.ok bp →
       (∀ ch ∈ sgood, handle_steam_channel env bp job0.description ch = (Except.ok (sres ch), true)) →
       handle_steam_channel env bp job0.description sbad = (Except.error ebad, att) →
       (processJob env kv job0).1.complete = kv.complete ∧
       ∃ r, (processJob env kv job0).1.failed = kv.failed ++ [r] ∧
         r.status = "failed" ∧
         r.error = some ("Job processing failed: " ++ ebad) ∧
         r.upload_results = some ⟨job0.cdn_channels.map (fun c => mkCdnEntry c (cdnInfos c)), []⟩ ∧
         r.steam_results = job0.steam_results ∧
         ∀ ev ∈ (processJob env kv job0).2, ev.pos ≤ job0.cdn_channels.length + sgood.length) := by
  constructor
  · intro good rest bad fp infos ebad att hch hfp hgood hbad
    have hfp2 : get_cdn_file_path env (initialized_job env job0) = Except.ok fp :=
      (get_cdn_file_path_eq_of_fields env job0 (initialized_job env job0) rfl rfl rfl).trans hfp
    have hph0 := cdn_phase_run env (initialized_job env job0) fp (by simp [hin]) (by simp [habs])
      (by simp [hch]) hfp2
    have hch2 : (initialized_job env job0).cdn_channels = good ++ bad :: rest := by simp [hch]
    rw [hch2] at hph0
    rw [cdnLoop_split_fail env fp infos good bad rest ebad att 0
      (initialized_job env job0) [] hgood hbad] at hph0
    rw [cdn_fold_results infos good (initialized_job env job0) ⟨[], []⟩ (by simp)] at hph0
    have hhj := handle_job_cdn_err env job0 kv _ _ ebad hph0
    have hpj := processJob_of_err env kv job0 _ _ _ _ hhj
    rw [hpj]
    refine ⟨rfl, _, rfl, rfl, rfl, ?_, ?_⟩
    · simp
    · intro ev hev
      rcases List.mem_append.mp hev with h1 | h2
      · have h1b : ev ∈ cdnEffsFrom good 0 := by simpa using h1
        obtain ⟨i, hi, hev2⟩ := cdnEffsFrom_mem ev good 0 h1b
        rw [hev2]
        simp only [Eff.pos]
        omega
      · cases att with
        | true =>
          simp at h2
          rw [h2]
          simp only [Eff.pos]
          omega
        | false => simp at h2
  · intro sgood srest sbad bp sres cdnInfos fp ebad att hch hcdnok hbp hgood hbad
    rcases hcdnok with hempty | ⟨hne, hfp, hall⟩
    · have hcd : cdn_phase env (initialized_job env job0) = (initialized_job env job0, [], none) :=
        cdn_phase_skip env _ (by simp [hempty])
      exact steam_fail_abort_tail env kv job0 (initialized_job env job0) []
        (job0.cdn_channels.map (fun c => mkCdnEntry c (cdnInfos c))) sgood srest sbad bp sres ebad att
        hin habs hch hcd rfl rfl rfl rfl rfl rfl rfl
        (by simp [hempty]) (by intro ev hev; simp at hev) hbp hgood hbad
    · have hfp2 : get_cdn_file_path env (initialized_job env job0) = Except.ok fp :=
        (get_cdn_file_path_eq_of_fields env job0 (initialized_job env job0) rfl rfl rfl).trans hfp
      have hph0 := cdn_phase_run env (initialized_job env job0) fp (by simp [hin]) (by simp [habs])
        (by simp [hne]) hfp2
      have hch2 : (initialized_job env job0).cdn_channels = job0.cdn_channels := by simp
      rw [hch2] at hph0
      rw [show job0.cdn_channels = job0.cdn_channels ++ [] from (List.append_nil _).symm] at hph0
      rw [cdnLoop_append_ok env fp cdnInfos job0.cdn_channels [] 0
        (initialized_job env job0) [] hall] at hph0
      simp only [cdnLoop] at hph0
      rw [cdn_fold_results cdnInfos job0.cdn_channels (initialized_job env job0) ⟨[], []⟩
        (by simp)] at hph0
      refine steam_fail_abort_tail env kv job0 _ _
        (job0.cdn_channels.map (fun c => mkCdnEntry c (cdnInfos c))) sgood srest sbad bp sres ebad att
        hin habs hch hph0 rfl rfl rfl rfl rfl rfl rfl (by simp) ?_ hbp hgood hbad
      intro ev hev
      have hev2 : ev ∈ cdnEffsFrom job0.cdn_channels 0 := by simpa using hev
      obtain ⟨i, hi, hev3⟩ := cdnEffsFrom_mem ev job0.cdn_channels 0 hev2
      rw [hev3]
      simp only [Eff.pos]
      omega

/-- C2 witness: a job whose single cdn channel fails at the transfer is
aborted with that failure text, reaches no other channel, and keeps the
empty result collection in the failed record. -/
theorem c2_first_channel_failure_aborts_witness :
    (processJob envC2 ⟨[], [], []⟩ jobC2).1.complete = (⟨[], [], []⟩ : KV).complete ∧
    ∃ r, (processJob envC2 ⟨[], [], []⟩ jobC2).1.failed = (⟨[], [], []⟩ : KV).failed ++ [r] ∧
      r.status = "failed" ∧
      r.error = some ("Job processing failed: " ++ "connection reset") ∧
      r.upload_results = some ⟨[], []⟩ ∧
      ∀ ev ∈ (processJob envC2 ⟨[], [], []⟩ jobC2).2, ev.pos ≤ 0 :=
  (c2_first_channel_failure_aborts envC2 ⟨[], [], []⟩ jobC2 (by decide) (by decide)).1
    [] [] chanC1 ("/data/b2.zip") (fun _ => { url := "", bucket := "", key := "", isPublic := false })
    ("connection reset") true rfl rfl (by intro c hc; simp at hc) rfl
